import Mathlib

/-!
# PlayMCP transport core — shallow embedding

Model of the MCP stdio transport of the PlayMCP repository:
the `Server` class (line framer, message classifier, dispatcher,
response writer) and the registered `callTool` handler, over a JSON
value model faithful to JavaScript `JSON.parse` / property semantics.
-/

/-- A JSON value as produced by `JSON.parse`.  Numbers are kept as exact
decimals `sig * 10 ^ exp` (IEEE-754 rounding performed by the host is not
modelled; no transport behaviour in scope depends on it). -/
inductive Json where
  | null
  | bool (b : Bool)
  | num (sig : Int) (exp : Int)
  | str (s : String)
  | arr (elems : List Json)
  | obj (fields : List (String × Json))
deriving Repr

namespace Json

/-- Whitespace accepted between JSON tokens (RFC 8259, as used by
`JSON.parse`). -/
def isJsonWs (c : Char) : Bool :=
  c = ' ' || c = '\t' || c = '\n' || c = '\r'

/-- Drop leading inter-token whitespace. -/
def skipWs : List Char → List Char
  | [] => []
  | c :: cs => if isJsonWs c then skipWs cs else c :: cs

def isDigit (c : Char) : Bool := '0' ≤ c && c ≤ '9'

def digitVal (c : Char) : Nat := c.toNat - '0'.toNat

def hexVal (c : Char) : Option Nat :=
  if '0' ≤ c ∧ c ≤ '9' then some (c.toNat - '0'.toNat)
  else if 'a' ≤ c ∧ c ≤ 'f' then some (c.toNat - 'a'.toNat + 10)
  else if 'A' ≤ c ∧ c ≤ 'F' then some (c.toNat - 'A'.toNat + 10)
  else none

def natOfDigits (ds : List Char) : Nat :=
  ds.foldl (fun acc c => acc * 10 + digitVal c) 0

/-- Parse the body of a JSON string literal (the opening quote already
consumed), returning the decoded characters and the rest of the input.
Lone-surrogate `\u` escapes (not representable as a scalar value) are not
modelled exactly; no claim in scope involves them. -/
def pStringRest : List Char → Option (List Char × List Char)
  | [] => none
  | '"' :: rest => some ([], rest)
  | '\\' :: esc =>
    match esc with
    | '"' :: r => (pStringRest r).map fun (s, t) => ('"' :: s, t)
    | '\\' :: r => (pStringRest r).map fun (s, t) => ('\\' :: s, t)
    | '/' :: r => (pStringRest r).map fun (s, t) => ('/' :: s, t)
    | 'b' :: r => (pStringRest r).map fun (s, t) => ('\x08' :: s, t)
    | 'f' :: r => (pStringRest r).map fun (s, t) => ('\x0c' :: s, t)
    | 'n' :: r => (pStringRest r).map fun (s, t) => ('\n' :: s, t)
    | 'r' :: r => (pStringRest r).map fun (s, t) => ('\r' :: s, t)
    | 't' :: r => (pStringRest r).map fun (s, t) => ('\t' :: s, t)
    | 'u' :: h1 :: h2 :: h3 :: h4 :: r =>
      match hexVal h1, hexVal h2, hexVal h3, hexVal h4 with
      | some a, some b, some c, some d =>
        (pStringRest r).map fun (s, t) =>
          (Char.ofNat (((a * 16 + b) * 16 + c) * 16 + d) :: s, t)
      | _, _, _, _ => none
    | _ => none
  | c :: rest =>
    if c.toNat < 0x20 then none
    else (pStringRest rest).map fun (s, t) => (c :: s, t)

/-- Parse a JSON number starting at the head of the input (grammar of
RFC 8259: optional minus, integer part with no leading zero, optional
fraction, optional exponent). -/
def pNumber (cs : List Char) : Option (Json × List Char) :=
  let (neg, cs1) : Bool × List Char :=
    match cs with
    | '-' :: t => (true, t)
    | _ => (false, cs)
  let intDs := cs1.takeWhile isDigit
  let cs2 := cs1.dropWhile isDigit
  if intDs.isEmpty then none
  else if intDs.length > 1 ∧ intDs.head? = some '0' then none
  else
    let (fracDs, cs3, fracOk) : List Char × List Char × Bool :=
      match cs2 with
      | '.' :: t =>
        let f := t.takeWhile isDigit
        (f, t.dropWhile isDigit, !f.isEmpty)
      | _ => ([], cs2, true)
    if !fracOk then none
    else
      let (expVal, cs4, expOk) : Int × List Char × Bool :=
        match cs3 with
        | 'e' :: t => pExpPart t
        | 'E' :: t => pExpPart t
        | _ => (0, cs3, true)
      if !expOk then none
      else
        let mag : Nat := natOfDigits (intDs ++ fracDs)
        let sig : Int := if neg then -(mag : Int) else (mag : Int)
        some (Json.num sig (expVal - fracDs.length), cs4)
where
  /-- Exponent part after `e`/`E`: optional sign then digits. -/
  pExpPart (t : List Char) : Int × List Char × Bool :=
    let (eneg, t1) : Bool × List Char :=
      match t with
      | '+' :: u => (false, u)
      | '-' :: u => (true, u)
      | _ => (false, t)
    let ds := t1.takeWhile isDigit
    if ds.isEmpty then (0, t, false)
    else
      let v : Int := (natOfDigits ds : Int)
      (if eneg then -v else v, t1.dropWhile isDigit, true)

mutual

/-- Parse one JSON value (fuel-indexed recursive descent). -/
def pValue : Nat → List Char → Option (Json × List Char)
  | 0, _ => none
  | fuel + 1, cs =>
    match skipWs cs with
    | 'n' :: 'u' :: 'l' :: 'l' :: rest => some (.null, rest)
    | 't' :: 'r' :: 'u' :: 'e' :: rest => some (.bool true, rest)
    | 'f' :: 'a' :: 'l' :: 's' :: 'e' :: rest => some (.bool false, rest)
    | '"' :: rest => (pStringRest rest).map fun (s, t) => (.str (String.mk s), t)
    | '[' :: rest =>
      (match skipWs rest with
       | ']' :: t => some (.arr [], t)
       | t => (pElems fuel t).map fun (es, u) => (.arr es, u))
    | '{' :: rest =>
      (match skipWs rest with
       | '}' :: t => some (.obj [], t)
       | t => (pMembers fuel t).map fun (fs, u) => (.obj fs, u))
    | cs' => pNumber cs'

/-- Parse the elements of a non-empty array, up to and including `]`. -/
def pElems : Nat → List Char → Option (List Json × List Char)
  | 0, _ => none
  | fuel + 1, cs =>
    match pValue fuel cs with
    | none => none
    | some (v, rest) =>
      match skipWs rest with
      | ',' :: t => (pElems fuel t).map fun (es, u) => (v :: es, u)
      | ']' :: t => some ([v], t)
      | _ => none

/-- Parse the members of a non-empty object, up to and including `}`. -/
def pMembers : Nat → List Char → Option (List (String × Json) × List Char)
  | 0, _ => none
  | fuel + 1, cs =>
    match skipWs cs with
    | '"' :: rest =>
      match pStringRest rest with
      | none => none
      | some (k, rest1) =>
        match skipWs rest1 with
        | ':' :: rest2 =>
          match pValue fuel rest2 with
          | none => none
          | some (v, rest3) =>
            match skipWs rest3 with
            | ',' :: t => (pMembers fuel t).map fun (fs, u) => ((String.mk k, v) :: fs, u)
            | '}' :: t => some ([(String.mk k, v)], t)
            | _ => none
        | _ => none
    | _ => none

end

end Json

/-- Model of JavaScript `JSON.parse`: `none` means the call throws a
`SyntaxError`.  The fuel `2 * length + 2` strictly dominates the
recursion depth any input of that length can demand. -/
def jsonParse (s : String) : Option Json :=
  let cs := s.data
  match Json.pValue (2 * cs.length + 2) cs with
  | some (v, rest) => if (Json.skipWs rest).isEmpty then some v else none
  | none => none

/-! ## JavaScript value semantics used by the transport -/

/-- `undefined` is modelled as `none`; every defined value is a `Json`. -/
abbrev JsValue := Option Json

/-- A JavaScript runtime error (`Error`, `TypeError`, `SyntaxError`,
`BrowserError`): a message plus the optional `suggestion` property that
`BrowserError` adds.  Host-generated message texts (`TypeError`,
`SyntaxError` from `JSON.parse`) are reproduced only descriptively. -/
structure JsError where
  message : String
  suggestion : Option String := none
deriving Repr, DecidableEq

/-- The message of the `SyntaxError` thrown by `JSON.parse`; the host's
input-dependent wording is abstracted to a fixed description. -/
def parseErrorMessage : String := "Unexpected token in JSON"

/-- `TypeError` thrown by a property read on `undefined` or `null`. -/
def typeErrorRead (k : String) : JsError :=
  ⟨"Cannot read properties of undefined or null (reading '" ++ k ++ "')", none⟩

/-- Property lookup on a defined, non-null value: objects give the value
of the (last) matching member, every other value has no own properties
relevant here, giving `undefined`. -/
def jsGetProp : Json → String → JsValue
  | .obj fields, k => fields.foldl (fun acc f => if f.1 = k then some f.2 else acc) none
  | _, _ => none

/-- `v.k` — property read, throwing `TypeError` on `undefined`/`null`. -/
def jsProp (v : JsValue) (k : String) : Except JsError JsValue :=
  match v with
  | none => .error (typeErrorRead k)
  | some .null => .error (typeErrorRead k)
  | some j => .ok (jsGetProp j k)

/-- `v?.k` — optional-chained property read: short-circuits to
`undefined` on `undefined`/`null`, never throws. -/
def jsOptProp (v : JsValue) (k : String) : JsValue :=
  match v with
  | none => none
  | some .null => none
  | some j => jsGetProp j k

/-- `v[i]` — index read with a numeric literal index, throwing
`TypeError` on `undefined`/`null`.  Arrays index their elements, strings
their characters, objects the property named by the decimal index. -/
def jsIndex (v : JsValue) (i : Nat) : Except JsError JsValue :=
  match v with
  | none => .error (typeErrorRead (toString i))
  | some .null => .error (typeErrorRead (toString i))
  | some (.arr xs) => .ok (xs.get? i)
  | some (.str s) => .ok ((s.data.get? i).map fun c => .str (String.mk [c]))
  | some (.obj fields) => .ok (jsGetProp (.obj fields) (toString i))
  | some _ => .ok none

/-- JavaScript truthiness of a value (`NaN` cannot arise from the
values the transport handles). -/
def jsTruthy : JsValue → Bool
  | none => false
  | some .null => false
  | some (.bool b) => b
  | some (.num sig _) => sig != 0
  | some (.str s) => s != ""
  | some (.arr _) => true
  | some (.obj _) => true

/-- `typeof v === 'string'`. -/
def jsIsString : JsValue → Bool
  | some (.str _) => true
  | _ => false

/-- `typeof v === 'number'`. -/
def jsIsNumber : JsValue → Bool
  | some (.num _ _) => true
  | _ => false

/-- Strip factors of ten from a decimal significand into the exponent
(so `1.50` renders as `1.5`); fuel-driven division loop. -/
def stripTens : Nat → Int → Int → Int × Int
  | 0, sig, exp => (sig, exp)
  | fuel + 1, sig, exp =>
    if sig ≠ 0 ∧ sig % 10 = 0 then stripTens fuel (sig / 10) (exp + 1)
    else (sig, exp)

/-- Render a decimal `sig * 10 ^ exp` the way JavaScript prints the
corresponding number (plain notation; the host's switch to scientific
notation for extreme magnitudes, and float rounding, are not modelled —
no claim in scope prints such numbers). -/
def numToString (sig exp : Int) : String :=
  let (s, e) := stripTens sig.natAbs sig exp
  if s = 0 then "0"
  else
    let digits := toString s.natAbs
    let body :=
      if e ≥ 0 then digits ++ String.mk (List.replicate e.toNat '0')
      else
        let k := (-e).toNat
        if digits.length > k then
          String.mk (digits.data.take (digits.length - k)) ++ "." ++
            String.mk (digits.data.drop (digits.length - k))
        else
          "0." ++ String.mk (List.replicate (k - digits.length) '0') ++ digits
    if s < 0 then "-" ++ body else body

mutual

/-- JavaScript string coercion `String(v)` of a defined value, as used
by template literals. -/
def jsToStringV : Json → String
  | .null => "null"
  | .bool true => "true"
  | .bool false => "false"
  | .num sig exp => numToString sig exp
  | .str s => s
  | .arr xs => String.intercalate "," (jsArrElems xs)
  | .obj _ => "[object Object]"

/-- Elements of `Array.prototype.join(",")`: `null` renders empty. -/
def jsArrElems : List Json → List String
  | [] => []
  | .null :: rest => "" :: jsArrElems rest
  | j :: rest => jsToStringV j :: jsArrElems rest

end

/-- Template-literal interpolation of a value (`undefined` prints as
such). -/
def jsToString : JsValue → String
  | none => "undefined"
  | some j => jsToStringV j

/-- Substring test, JavaScript `String.prototype.includes`. -/
def listHasPrefix : List Char → List Char → Bool
  | _, [] => true
  | [], _ :: _ => false
  | a :: as, b :: bs => a = b && listHasPrefix as bs

def listHasSub (hay needle : List Char) : Bool :=
  if listHasPrefix hay needle then true
  else
    match hay with
    | [] => false
    | _ :: t => listHasSub t needle

def strIncludes (s pat : String) : Bool := listHasSub s.data pat.data

example : strIncludes "\x7b\"id\": 1, nope" "\"id\"" = true := by decide
example : strIncludes "\x7bnot json" "\"id\"" = false := by decide

example : jsonParse "\x7b\"id\": 7, \"method\": \"foo\"\x7d" =
    some (.obj [("id", .num 7 0), ("method", .str "foo")]) := rfl

/-! ## The `Server` class (`src/mcp/server.ts`) -/

/-- `ServerConfig`: the static server identity. -/
structure ServerConfig where
  name : String
  version : String

/-- `ServerCapabilities`: wrapper carrying the declared capabilities
object (in the repository, `{ capabilities: { tools } }`). -/
structure ServerCapabilities where
  capabilities : Json

/-- The request object the `Server` passes to the registered call
handler: `{ params: { name, arguments } }`. -/
structure CallToolRequest where
  name : JsValue
  arguments : JsValue

/-- The `Server` instance state.  A handler registration slot holds, for
the single invocation a message triggers, the handler's eventual
settlement: `Except.error` models a rejected promise. -/
structure Server where
  config : ServerConfig
  capabilities : ServerCapabilities
  listToolsHandler : Option (Except JsError Json) := none
  callToolHandler : Option (CallToolRequest → Except JsError Json) := none

/-- A JSON object member that `JSON.stringify` keeps only when the value
is defined (`{id: undefined}` serializes without the key). -/
def optField (k : String) (v : JsValue) : List (String × Json) :=
  match v with
  | none => []
  | some j => [(k, j)]

/-- A success envelope `{jsonrpc, id, result}` (the `id` key dropped by
`JSON.stringify` when the request had none). -/
def rpcResult (idv : JsValue) (result : Json) : Json :=
  .obj (("jsonrpc", .str "2.0") :: optField "id" idv ++ [("result", result)])

/-- The error envelope built in `handleInput`'s catch block:
`{jsonrpc, id, error: {code: -32603, message, data: {suggestion}}}`. -/
def rpcError (idv : JsValue) (e : JsError) : Json :=
  .obj (("jsonrpc", .str "2.0") :: optField "id" idv ++
    [("error", .obj
      [("code", .num (-32603) 0),
       ("message", .str e.message),
       ("data", .obj [("suggestion", .str "Check input format")])])])

/-- The `initialize` result: fixed protocol version, declared
capabilities and server identity. -/
def initializeResult (sv : Server) : Json :=
  .obj [("protocolVersion", .str "2024-11-05"),
        ("capabilities", sv.capabilities.capabilities),
        ("serverInfo", .obj [("name", .str sv.config.name),
                             ("version", .str sv.config.version)])]

/-- The legacy envelope `{type: "response", result: {success, …}}`
written on the legacy `command` path: on handler success the first
content block's `text` as `message`, on handler-reported error the first
two blocks' `text`s as `message`/`suggestion` (keys dropped when the
value is `undefined`). -/
def legacyEnvelope (success : Bool) (body : List (String × Json)) : Json :=
  .obj [("type", .str "response"),
        ("result", .obj (("success", .bool success) :: body))]

/-- Build the legacy response object written on the `command` path
(evaluation of `response.isError`, `response.content[0].text` and
`response.content[1]?.text`, each of which can raise). -/
def legacyReshape (response : Json) : Except JsError Json :=
  match jsProp (some response) "isError" with
  | .error e => .error e
  | .ok isErrV =>
    if jsTruthy isErrV then
      match jsIndex (jsGetProp response "content") 0 with
      | .error e => .error e
      | .ok c0 =>
        match jsProp c0 "text" with
        | .error e => .error e
        | .ok msgV =>
          match jsIndex (jsGetProp response "content") 1 with
          | .error e => .error e
          | .ok c1 =>
            .ok (legacyEnvelope false
              [("error", .obj (optField "message" msgV ++
                 optField "suggestion" (jsOptProp c1 "text")))])
    else
      match jsIndex (jsGetProp response "content") 0 with
      | .error e => .error e
      | .ok c0 =>
        match jsProp c0 "text" with
        | .error e => .error e
        | .ok msgV => .ok (legacyEnvelope true (optField "message" msgV))

/-- The legacy branch of `handleInput`: `if (message.command) { … }`
(reached when no recognized `method` matched), else no output. -/
def legacyBranch (sv : Server) (message : Json) : Except JsError (List Json) :=
  if jsTruthy (jsGetProp message "command") then
    match sv.callToolHandler with
    | none => .error ⟨"No call tool handler registered", none⟩
    | some handler =>
      match handler ⟨jsGetProp message "command", jsGetProp message "arguments"⟩ with
      | .error e => .error e
      | .ok response =>
        match legacyReshape response with
        | .error e => .error e
        | .ok envelope => .ok [envelope]
  else
    .ok []

/-- `v === "<literal>"` for a JavaScript string literal can only hold
for a string value; extract it. -/
def methodString : JsValue → Option String
  | some (.str s) => some s
  | _ => none

/-- The `try` block of `Server.handleInput`: parse the line, classify by
`method`, dispatch, and return the list of lines written (`console.log`
calls); `Except.error` is a raised JavaScript exception reaching the
`catch`. -/
def tryBody (sv : Server) (input : String) : Except JsError (List Json) :=
  match jsonParse input with
  | none => .error ⟨parseErrorMessage, none⟩
  | some .null => .error (typeErrorRead "method")
  | some message =>
    match methodString (jsGetProp message "method") with
    | none => legacyBranch sv message
    | some m =>
      if m = "initialize" then
        .ok [rpcResult (jsGetProp message "id") (initializeResult sv)]
      else if m = "notifications/initialized" then
        .ok []
      else if m = "tools/list" then
        match sv.listToolsHandler with
        | none => .error ⟨"No list tools handler registered", none⟩
        | some handler =>
          match handler with
          | .error e => .error e
          | .ok response => .ok [rpcResult (jsGetProp message "id") response]
      else if m = "tools/call" then
        match sv.callToolHandler with
        | none => .error ⟨"No call tool handler registered", none⟩
        | some handler =>
          match jsProp (jsGetProp message "params") "name" with
          | .error e => .error e
          | .ok nameV =>
            match jsProp (jsGetProp message "params") "arguments" with
            | .error e => .error e
            | .ok argsV =>
              match handler ⟨nameV, argsV⟩ with
              | .error e => .error e
              | .ok response => .ok [rpcResult (jsGetProp message "id") response]
      else legacyBranch sv message

/-! ## `JSON.stringify(·, null, 2)` -/

/-- Escape one character of a JSON string literal as
`JSON.stringify` does. -/
def jsonEscapeChar (c : Char) : List Char :=
  if c = '"' then ['\\', '"']
  else if c = '\\' then ['\\', '\\']
  else if c = '\n' then ['\\', 'n']
  else if c = '\r' then ['\\', 'r']
  else if c = '\t' then ['\\', 't']
  else if c = '\x08' then ['\\', 'b']
  else if c = '\x0c' then ['\\', 'f']
  else if c.toNat < 0x20 then
    ['\\', 'u', '0', '0',
     (Nat.digitChar (c.toNat / 16)), (Nat.digitChar (c.toNat % 16))]
  else [c]

def jsonQuote (s : String) : String :=
  "\"" ++ String.mk (s.data.map jsonEscapeChar).flatten ++ "\""

def indentSpaces (n : Nat) : String := String.mk (List.replicate n ' ')

mutual

/-- `JSON.stringify(v, null, 2)` at nesting depth `ind` (in spaces). -/
def stringifyAt (ind : Nat) : Json → String
  | .null => "null"
  | .bool true => "true"
  | .bool false => "false"
  | .num sig exp => numToString sig exp
  | .str s => jsonQuote s
  | .arr [] => "[]"
  | .arr (x :: xs) =>
    "[\n" ++ String.intercalate ",\n" (stringifyElems (ind + 2) (x :: xs)) ++
      "\n" ++ indentSpaces ind ++ "]"
  | .obj [] => "\x7b\x7d"
  | .obj (f :: fs) =>
    "\x7b\n" ++ String.intercalate ",\n" (stringifyMembers (ind + 2) (f :: fs)) ++
      "\n" ++ indentSpaces ind ++ "\x7d"

def stringifyElems (ind : Nat) : List Json → List String
  | [] => []
  | x :: xs => (indentSpaces ind ++ stringifyAt ind x) :: stringifyElems ind xs

def stringifyMembers (ind : Nat) : List (String × Json) → List String
  | [] => []
  | (k, v) :: fs =>
    (indentSpaces ind ++ jsonQuote k ++ ": " ++ stringifyAt ind v) ::
      stringifyMembers ind fs

end

/-- `JSON.stringify(v, null, 2)`. -/
def stringifyPretty (v : Json) : String := stringifyAt 0 v

/-! ## The registered `callTool` handler (`src/server.ts`) -/

/-- The browser controller, the external collaborator the handler
delegates to (`playwrightController`); each field is the settlement of
the corresponding async method for the one invocation a request makes,
typed by the controller's declared signatures.  Rejections are
`Except.error` (in the repository always a `BrowserError` carrying a
message and a suggestion). -/
structure PlaywrightController where
  openBrowser : JsValue → JsValue → Except JsError Unit
  navigate : JsValue → Except JsError Unit
  type : JsValue → JsValue → Except JsError Unit
  click : JsValue → Except JsError Unit
  moveMouse : JsValue → JsValue → Except JsError Unit
  scroll : JsValue → JsValue → JsValue → Except JsError Json
  screenshot : JsValue → Except JsError Unit
  getPageSource : Except JsError String
  getPageText : Except JsError String
  getPageTitle : Except JsError String
  getPageUrl : Except JsError String
  getScripts : Except JsError (List String)
  getStylesheets : Except JsError (List String)
  getMetaTags : Except JsError Json
  getLinks : Except JsError Json
  getImages : Except JsError Json
  getForms : Except JsError Json
  getElementContent : JsValue → Except JsError Json
  getElementHierarchy : JsValue → JsValue → JsValue → JsValue → Except JsError Json
  executeJavaScript : JsValue → Except JsError JsValue
  closeBrowser : Except JsError Unit

/-- JavaScript subtraction as used for the `scrolled` deltas: exact on
decimal numbers; any other operand pair (where the host would coerce
and possibly produce `NaN`, which `JSON.stringify` renders as `null`)
is abstracted to `null`. -/
def jsSub : JsValue → JsValue → Json
  | some (.num s1 e1), some (.num s2 e2) =>
    if e1 ≥ e2 then .num (s1 * 10 ^ (e1 - e2).toNat - s2) e2
    else .num (s1 - s2 * 10 ^ (e2 - e1).toNat) e1
  | _, _ => .null

/-- A `{content: [{type: "text", text}]}` success result. -/
def okContent (text : String) : Json :=
  .obj [("content", .arr [.obj [("type", .str "text"), ("text", .str text)]])]

/-- A `{content: [{type: "text", text}], isError: true}` result. -/
def errContent (text : String) : Json :=
  .obj [("content", .arr [.obj [("type", .str "text"), ("text", .str text)]]),
        ("isError", .bool true)]

/-- The `switch`'s `default` arm: the content-shaped
`Unknown tool: <name>` error result (the name interpolated by template
literal). -/
def unknownToolResult (name : JsValue) : Json :=
  .obj [("content", .arr [.obj [("type", .str "text"),
    ("text", .str ("Unknown tool: " ++ jsToString name))]]),
    ("isError", .bool true)]

/-- The tool names the handler's `switch` recognizes (the source lists
`case 'scroll'` twice; the first occurrence wins, the second is dead). -/
def knownToolNames : List String :=
  ["openBrowser", "navigate", "type", "click", "moveMouse", "scroll",
   "screenshot", "getPageSource", "getPageText", "getPageTitle",
   "getPageUrl", "getScripts", "getStylesheets", "getMetaTags",
   "getLinks", "getImages", "getForms", "getElementContent",
   "getElementHierarchy", "executeJavaScript", "closeBrowser"]

/-- The arms of the registered handler's `switch`, one definition per
`case` label (the second, dead `case 'scroll'` of the source is
unreachable and omitted; the first occurrence wins). -/
def caseOpenBrowser (pc : PlaywrightController) (args : Json) :
    Except JsError Json :=
    match jsProp (some args) "headless" with
    | .error e => .error e
    | .ok headless =>
      match jsProp (some args) "debug" with
      | .error e => .error e
      | .ok debug =>
        match pc.openBrowser headless debug with
        | .error e => .error e
        | .ok _ => .ok (okContent "Browser opened successfully")

def caseNavigate (pc : PlaywrightController) (args : Json) :
    Except JsError Json :=
    match jsProp (some args) "url" with
    | .error e => .error e
    | .ok url =>
      if !jsTruthy url || !jsIsString url then .ok (errContent "URL is required")
      else
        match pc.navigate url with
        | .error e => .error e
        | .ok _ => .ok (okContent "Navigation successful")

def caseType (pc : PlaywrightController) (args : Json) :
    Except JsError Json :=
    match jsProp (some args) "selector" with
    | .error e => .error e
    | .ok selector =>
      match jsProp (some args) "text" with
      | .error e => .error e
      | .ok text =>
        if !jsTruthy selector || !jsTruthy text then
          .ok (errContent "Selector and text are required")
        else
          match pc.type selector text with
          | .error e => .error e
          | .ok _ => .ok (okContent "Text entered successfully")

def caseClick (pc : PlaywrightController) (args : Json) :
    Except JsError Json :=
    match jsProp (some args) "selector" with
    | .error e => .error e
    | .ok selector =>
      if !jsTruthy selector then .ok (errContent "Selector is required")
      else
        match pc.click selector with
        | .error e => .error e
        | .ok _ => .ok (okContent "Click successful")

def caseMoveMouse (pc : PlaywrightController) (args : Json) :
    Except JsError Json :=
    match jsProp (some args) "x" with
    | .error e => .error e
    | .ok x =>
      match jsProp (some args) "y" with
      | .error e => .error e
      | .ok y =>
        if !jsIsNumber x || !jsIsNumber y then
          .ok (errContent "X and Y coordinates are required")
        else
          match pc.moveMouse x y with
          | .error e => .error e
          | .ok _ => .ok (okContent "Mouse moved successfully")

def caseScroll (pc : PlaywrightController) (args : Json) :
    Except JsError Json :=
    match jsProp (some args) "x" with
    | .error e => .error e
    | .ok x =>
      match jsProp (some args) "y" with
      | .error e => .error e
      | .ok y =>
        if !jsIsNumber x || !jsIsNumber y then
          .ok (errContent "X and Y scroll amounts are required")
        else
          match jsProp (some args) "smooth" with
          | .error e => .error e
          | .ok smooth =>
            match pc.scroll x y (if jsTruthy smooth then smooth else some (.bool false)) with
            | .error e => .error e
            | .ok scrollResult =>
              match jsProp (some scrollResult) "before" with
              | .error e => .error e
              | .ok beforeV =>
                match jsProp (some scrollResult) "after" with
                | .error e => .error e
                | .ok afterV =>
                  match jsProp afterV "x", jsProp beforeV "x",
                        jsProp afterV "y", jsProp beforeV "y" with
                  | .ok ax, .ok bx, .ok ay, .ok by' =>
                    .ok (okContent (stringifyPretty (.obj
                      (("message", Json.str "Page scrolled successfully") ::
                       optField "before" beforeV ++ optField "after" afterV ++
                       [("scrolled", .obj
                         [("x", jsSub ax bx), ("y", jsSub ay by')])]))))
                  | .error e, _, _, _ => .error e
                  | _, .error e, _, _ => .error e
                  | _, _, .error e, _ => .error e
                  | _, _, _, .error e => .error e

def caseScreenshot (pc : PlaywrightController) (args : Json) :
    Except JsError Json :=
    match jsProp (some args) "path" with
    | .error e => .error e
    | .ok path =>
      if !jsTruthy path then .ok (errContent "Path is required")
      else
        match pc.screenshot (some args) with
        | .error e => .error e
        | .ok _ => .ok (okContent "Screenshot taken successfully")

def caseGetPageSource (pc : PlaywrightController) (args : Json) :
    Except JsError Json :=
    match pc.getPageSource with
    | .error e => .error e
    | .ok source => .ok (okContent source)

def caseGetPageText (pc : PlaywrightController) (args : Json) :
    Except JsError Json :=
    match pc.getPageText with
    | .error e => .error e
    | .ok text => .ok (okContent text)

def caseGetPageTitle (pc : PlaywrightController) (args : Json) :
    Except JsError Json :=
    match pc.getPageTitle with
    | .error e => .error e
    | .ok title => .ok (okContent title)

def caseGetPageUrl (pc : PlaywrightController) (args : Json) :
    Except JsError Json :=
    match pc.getPageUrl with
    | .error e => .error e
    | .ok url => .ok (okContent url)

def caseGetScripts (pc : PlaywrightController) (args : Json) :
    Except JsError Json :=
    match pc.getScripts with
    | .error e => .error e
    | .ok scripts => .ok (okContent (String.intercalate "\n" scripts))

def caseGetStylesheets (pc : PlaywrightController) (args : Json) :
    Except JsError Json :=
    match pc.getStylesheets with
    | .error e => .error e
    | .ok stylesheets => .ok (okContent (String.intercalate "\n" stylesheets))

def caseGetMetaTags (pc : PlaywrightController) (args : Json) :
    Except JsError Json :=
    match pc.getMetaTags with
    | .error e => .error e
    | .ok metaTags => .ok (okContent (stringifyPretty metaTags))

def caseGetLinks (pc : PlaywrightController) (args : Json) :
    Except JsError Json :=
    match pc.getLinks with
    | .error e => .error e
    | .ok links => .ok (okContent (stringifyPretty links))

def caseGetImages (pc : PlaywrightController) (args : Json) :
    Except JsError Json :=
    match pc.getImages with
    | .error e => .error e
    | .ok images => .ok (okContent (stringifyPretty images))

def caseGetForms (pc : PlaywrightController) (args : Json) :
    Except JsError Json :=
    match pc.getForms with
    | .error e => .error e
    | .ok forms => .ok (okContent (stringifyPretty forms))

def caseGetElementContent (pc : PlaywrightController) (args : Json) :
    Except JsError Json :=
    match jsProp (some args) "selector" with
    | .error e => .error e
    | .ok selector =>
      if !jsTruthy selector then .ok (errContent "Selector is required")
      else
        match pc.getElementContent selector with
        | .error e => .error e
        | .ok content => .ok (okContent (stringifyPretty content))

def caseGetElementHierarchy (pc : PlaywrightController) (args : Json) :
    Except JsError Json :=
    match jsProp (some args) "selector" with
    | .error e => .error e
    | .ok selector =>
      match jsProp (some args) "maxDepth" with
      | .error e => .error e
      | .ok maxDepth =>
        match jsProp (some args) "includeText" with
        | .error e => .error e
        | .ok includeText =>
          match jsProp (some args) "includeAttributes" with
          | .error e => .error e
          | .ok includeAttributes =>
            match pc.getElementHierarchy
                (if jsTruthy selector then selector else some (.str "body"))
                (if jsTruthy maxDepth then maxDepth else some (.num 3 0))
                (if jsTruthy includeText then includeText else some (.bool false))
                (if jsTruthy includeAttributes then includeAttributes
                 else some (.bool false)) with
            | .error e => .error e
            | .ok hierarchy => .ok (okContent (stringifyPretty hierarchy))

def caseExecuteJavaScript (pc : PlaywrightController) (args : Json) :
    Except JsError Json :=
    match jsProp (some args) "script" with
    | .error e => .error e
    | .ok script =>
      if !jsTruthy script || !jsIsString script then
        .ok (errContent "JavaScript script is required")
      else
        match pc.executeJavaScript script with
        | .error e => .error e
        | .ok result =>
          .ok (okContent (match result with
            | some v => stringifyPretty v
            | none => "Script executed successfully (no return value)"))

def caseCloseBrowser (pc : PlaywrightController) (args : Json) :
    Except JsError Json :=
    match pc.closeBrowser with
    | .error e => .error e
    | .ok _ => .ok (okContent "Browser closed successfully")

/-- The body of the handler's `try`: destructured `name`/`args` already
in hand, the `switch` over the tool name. -/
def callToolSwitch (pc : PlaywrightController) (name : JsValue) (args : Json) :
    Except JsError Json :=
  match methodString name with
  | none => .ok (unknownToolResult name)
  | some s =>
    if s = "openBrowser" then caseOpenBrowser pc args
    else if s = "navigate" then caseNavigate pc args
    else if s = "type" then caseType pc args
    else if s = "click" then caseClick pc args
    else if s = "moveMouse" then caseMoveMouse pc args
    else if s = "scroll" then caseScroll pc args
    else if s = "screenshot" then caseScreenshot pc args
    else if s = "getPageSource" then caseGetPageSource pc args
    else if s = "getPageText" then caseGetPageText pc args
    else if s = "getPageTitle" then caseGetPageTitle pc args
    else if s = "getPageUrl" then caseGetPageUrl pc args
    else if s = "getScripts" then caseGetScripts pc args
    else if s = "getStylesheets" then caseGetStylesheets pc args
    else if s = "getMetaTags" then caseGetMetaTags pc args
    else if s = "getLinks" then caseGetLinks pc args
    else if s = "getImages" then caseGetImages pc args
    else if s = "getForms" then caseGetForms pc args
    else if s = "getElementContent" then caseGetElementContent pc args
    else if s = "getElementHierarchy" then caseGetElementHierarchy pc args
    else if s = "executeJavaScript" then caseExecuteJavaScript pc args
    else if s = "closeBrowser" then caseCloseBrowser pc args
    else .ok (unknownToolResult name)

/-- The destructuring `const { name, arguments: args = {} } =
request.params`: the default applies only to `undefined`. -/
def requestArgs (request : CallToolRequest) : Json :=
  match request.arguments with
  | none => .obj []
  | some v => v

/-- The text of the `catch` result: `Error: <message>`, with
`\nSuggestion: <suggestion>` appended when the suggestion is truthy. -/
def catchText (e : JsError) : String :=
  "Error: " ++ e.message ++
    (match e.suggestion with
     | some s => if s ≠ "" then "\nSuggestion: " ++ s else ""
     | none => "")

/-- The registered `callTool` handler: destructure
`{name, arguments: args = {}}` from `request.params`, run the `switch`,
and convert any raised exception into a `{content, isError: true}`
result carrying `Error: <message>` plus the error's truthy suggestion. -/
def registeredCallTool (pc : PlaywrightController) (request : CallToolRequest) :
    Except JsError Json :=
  match callToolSwitch pc request.name (requestArgs request) with
  | .ok r => .ok r
  | .error e => .ok (errContent (catchText e))

/-- The observable outcome of one `handleInput` call: the JSON lines it
wrote, and the exception (if any) that escaped it — an escaped exception
becomes an unhandled promise rejection in the host. -/
structure HandleResult where
  outputs : List Json
  thrown : Option JsError
deriving Repr

/-- `Server.handleInput`: run the `try` block; on an exception, emit the
`-32603` error envelope, recovering an id by **re-parsing the raw
line** whenever it contains the substring `"id"` — a re-parse that
itself throws when the line was not valid JSON. -/
def handleInput (sv : Server) (input : String) : HandleResult :=
  match tryBody sv input with
  | .ok outs => ⟨outs, none⟩
  | .error e =>
    if strIncludes input "\"id\"" then
      match jsonParse input with
      | none => ⟨[], some ⟨parseErrorMessage, none⟩⟩
      | some .null => ⟨[], some (typeErrorRead "id")⟩
      | some m => ⟨[rpcError (jsGetProp m "id") e], none⟩
    else
      ⟨[rpcError (some .null) e], none⟩

/-! ## The line framer (`Server.connect`) -/

/-- `String.prototype.split('\n')` on the character sequence. -/
def splitNl : List Char → List (List Char)
  | [] => [[]]
  | c :: cs =>
    if c = '\n' then [] :: splitNl cs
    else
      match splitNl cs with
      | [] => [[c]]
      | l :: ls => (c :: l) :: ls

/-- Join with newlines; the inverse of `splitNl`. -/
def joinNl : List (List Char) → List Char
  | [] => []
  | [l] => l
  | l :: ls => l ++ '\n' :: joinNl ls

/-- The whitespace stripped by `String.prototype.trim` (ECMAScript
WhiteSpace and LineTerminator code points). -/
def jsIsTrimWs (c : Char) : Bool :=
  c = ' ' || c = '\t' || c = '\n' || c = '\r' || c = '\x0b' || c = '\x0c' ||
  c = '\u00a0' || c = '\u1680' ||
  ('\u2000' ≤ c && c ≤ '\u200a') ||
  c = '\u2028' || c = '\u2029' || c = '\u202f' || c = '\u205f' ||
  c = '\u3000' || c = '\ufeff'

/-- `line.trim()` is truthy iff the line has a non-whitespace character. -/
def trimTruthy (l : List Char) : Bool := !l.all jsIsTrimWs

/-- One `data` event of `Server.connect`: append the chunk to the
buffer; if a newline is present, split, keep the trailing partial line
as the new buffer, and hand every extracted line with truthy `trim()`
to `handleInput`.  Returns the new buffer and the lines handed on. -/
def framerStep (buffer chunk : List Char) : List Char × List (List Char) :=
  let b := buffer ++ chunk
  if b.contains '\n' then
    let lines := splitNl b
    (lines.getLastD [], lines.dropLast.filter trimTruthy)
  else (b, [])

/-- A `data` event followed by the dispatch of each extracted line
(handler settlement modelled as immediate; the fire-and-forget output
interleaving across in-flight lines is a concurrency aspect outside
these claims). -/
def processChunk (sv : Server) (buffer chunk : List Char) :
    List Char × List HandleResult :=
  let (b, lines) := framerStep buffer chunk
  (b, lines.map fun l => handleInput sv (String.mk l))

/-! ## Sanity checks of the model on concrete traffic -/

/-- A server with no handlers registered. -/
def bareServer : Server :=
  { config := ⟨"playmcp-browser", "1.0.0"⟩
    capabilities := ⟨.obj [("tools", .obj [])]⟩ }

/-- A server whose call handler answers every request with a
`Navigation successful` content result. -/
def navServer : Server :=
  { bareServer with
    callToolHandler := some fun _ =>
      .ok (.obj [("content", .arr [.obj [("type", .str "text"),
                   ("text", .str "Navigation successful")]])]) }

example :
    handleInput bareServer "\x7b\"jsonrpc\":\"2.0\",\"id\":1,\"method\":\"initialize\"\x7d" =
      ⟨[.obj [("jsonrpc", .str "2.0"), ("id", .num 1 0),
         ("result", .obj [("protocolVersion", .str "2024-11-05"),
           ("capabilities", .obj [("tools", .obj [])]),
           ("serverInfo", .obj [("name", .str "playmcp-browser"),
             ("version", .str "1.0.0")])])]], none⟩ := rfl

example :
    handleInput bareServer "\x7b\"id\":9,\"method\":\"notifications/initialized\"\x7d" =
      ⟨[], none⟩ := rfl

example :
    handleInput bareServer "\x7b\"jsonrpc\":\"2.0\",\"id\":7,\"method\":\"foo/bar\"\x7d" =
      ⟨[], none⟩ := rfl

example :
    handleInput bareServer "\x7bnot json" =
      ⟨[.obj [("jsonrpc", .str "2.0"), ("id", .null),
        ("error", .obj [("code", .num (-32603) 0),
          ("message", .str parseErrorMessage),
          ("data", .obj [("suggestion", .str "Check input format")])])]],
       none⟩ := rfl

example :
    handleInput bareServer "\x7b\"id\": 1, nope" =
      ⟨[], some ⟨parseErrorMessage, none⟩⟩ := rfl

example :
    handleInput navServer
        "\x7b\"command\":\"navigate\",\"arguments\":\x7b\"url\":\"https://example.com\"\x7d\x7d" =
      ⟨[.obj [("type", .str "response"),
        ("result", .obj [("success", .bool true),
          ("message", .str "Navigation successful")])]], none⟩ := rfl

example :
    handleInput bareServer "\x7b\"jsonrpc\":\"2.0\",\"id\":2,\"method\":\"tools/list\"\x7d" =
      ⟨[.obj [("jsonrpc", .str "2.0"), ("id", .num 2 0),
        ("error", .obj [("code", .num (-32603) 0),
          ("message", .str "No list tools handler registered"),
          ("data", .obj [("suggestion", .str "Check input format")])])]],
       none⟩ := rfl

example :
    framerStep "partial".data "a\nb\n \ncd".data =
      ("cd".data, ["partiala".data, "b".data]) := rfl

/-! ## Properties of the line splitter -/

theorem splitNl_ne_nil (cs : List Char) : splitNl cs ≠ [] := by
  induction cs with
  | nil => simp [splitNl]
  | cons c cs ih =>
    simp only [splitNl]
    split
    · simp
    · match h : splitNl cs with
      | [] => exact absurd h ih
      | l :: ls => simp

theorem joinNl_cons_cons (l l' : List Char) (ls : List (List Char)) :
    joinNl (l :: l' :: ls) = l ++ '\n' :: joinNl (l' :: ls) := rfl

theorem joinNl_splitNl (cs : List Char) : joinNl (splitNl cs) = cs := by
  induction cs with
  | nil => simp [splitNl, joinNl]
  | cons c cs ih =>
    simp only [splitNl]
    split
    · rename_i hc
      match h : splitNl cs with
      | [] => exact absurd h (splitNl_ne_nil cs)
      | l :: ls =>
        rw [h] at ih
        simp [joinNl_cons_cons, ih, hc]
    · match h : splitNl cs with
      | [] => exact absurd h (splitNl_ne_nil cs)
      | [l] =>
        rw [h] at ih
        simpa [joinNl] using congrArg (c :: ·) ih
      | l :: l' :: ls =>
        rw [h] at ih
        simpa [joinNl_cons_cons] using congrArg (c :: ·) ih

theorem splitNl_no_newline (cs : List Char) (l : List Char)
    (hl : l ∈ splitNl cs) : '\n' ∉ l := by
  induction cs generalizing l with
  | nil =>
    simp [splitNl] at hl
    simp [hl]
  | cons c cs ih =>
    simp only [splitNl] at hl
    by_cases hc : c = '\n'
    · simp [hc] at hl
      rcases hl with h | h
      · simp [h]
      · exact ih l h
    · simp [hc] at hl
      match h : splitNl cs with
      | [] => exact absurd h (splitNl_ne_nil cs)
      | m :: ms =>
        rw [h] at hl
        simp at hl
        rcases hl with h' | h'
        · subst h'
          intro hmem
          rcases List.mem_cons.mp hmem with h'' | h''
          · exact hc h''.symm
          · exact ih m (h ▸ List.mem_cons_self m ms) h''
        · exact ih l (h ▸ List.mem_cons_of_mem m h')

theorem splitNl_append_newline (l rest : List Char) (hl : ('\n' : Char) ∉ l) :
    splitNl (l ++ '\n' :: rest) = l :: splitNl rest := by
  induction l with
  | nil => simp [splitNl]
  | cons c cs ih =>
    have hc : c ≠ '\n' := fun h => hl (h ▸ List.mem_cons_self c cs)
    have ih' := ih fun h => hl (List.mem_cons_of_mem c h)
    simp only [List.cons_append, splitNl, if_neg hc, List.append_eq, ih']

theorem splitNl_of_no_newline (cs : List Char) (h : ('\n' : Char) ∉ cs) :
    splitNl cs = [cs] := by
  induction cs with
  | nil => simp [splitNl]
  | cons c cs ih =>
    have hc : c ≠ '\n' := fun hh => h (hh ▸ List.mem_cons_self c cs)
    have ih' := ih fun hh => h (List.mem_cons_of_mem c hh)
    simp only [splitNl, if_neg hc, ih']

/-! ## Claim theorems -/

theorem dropLast_append_getLastD {α : Type} :
    ∀ (l : List α) (_ : l ≠ []) (d : α), l.dropLast ++ [l.getLastD d] = l
  | [a], _, d => rfl
  | a :: b :: t, _, d => by
    have ih := dropLast_append_getLastD (b :: t) (by simp) a
    simpa [List.getLastD] using ih

theorem getLastD_mem {α : Type} :
    ∀ (l : List α) (_ : l ≠ []) (d : α), l.getLastD d ∈ l
  | [a], _, d => by simp [List.getLastD]
  | a :: b :: t, _, d => by
    have ih := getLastD_mem (b :: t) (by simp) a
    simp only [List.getLastD]
    exact List.mem_cons_of_mem a ih

/-- C7: the Line Framer appends each incoming chunk to its buffer; a
buffer state containing a newline decomposes into complete lines (each
newline-free) followed by the retained newline-free trailing partial
line, and exactly the non-whitespace-only extracted lines are fed on;
without a newline nothing is extracted and the whole text stays
buffered. -/
theorem C7_framer_characterization (buffer chunk : List Char) :
    ∃ lines : List (List Char),
      buffer ++ chunk = joinNl (lines ++ [(framerStep buffer chunk).1]) ∧
      (∀ l ∈ lines, ('\n' : Char) ∉ l) ∧
      ('\n' : Char) ∉ (framerStep buffer chunk).1 ∧
      (framerStep buffer chunk).2 = lines.filter trimTruthy ∧
      (('\n' : Char) ∉ buffer ++ chunk →
        lines = [] ∧ (framerStep buffer chunk).1 = buffer ++ chunk) := by
  by_cases hn : ('\n' : Char) ∈ buffer ++ chunk
  · have hc : (buffer ++ chunk).contains '\n' = true := by simpa using hn
    have hne := splitNl_ne_nil (buffer ++ chunk)
    have hstep1 : (framerStep buffer chunk).1 =
        (splitNl (buffer ++ chunk)).getLastD [] := by
      simp only [framerStep, hc, if_true]
    have hstep2 : (framerStep buffer chunk).2 =
        (splitNl (buffer ++ chunk)).dropLast.filter trimTruthy := by
      simp only [framerStep, hc, if_true]
    refine ⟨(splitNl (buffer ++ chunk)).dropLast, ?_, ?_, ?_, ?_, ?_⟩
    · rw [hstep1, dropLast_append_getLastD _ hne, joinNl_splitNl]
    · intro l hl
      exact splitNl_no_newline _ l (List.dropLast_subset _ hl)
    · rw [hstep1]
      exact splitNl_no_newline _ _ (getLastD_mem _ hne [])
    · exact hstep2
    · intro h
      exact absurd hn h
  · have hc : (buffer ++ chunk).contains '\n' = false := by simpa using hn
    refine ⟨[], ?_, by simp, ?_, ?_, ?_⟩
    · simp only [framerStep, hc, if_false]
      simp [joinNl]
    · simp only [framerStep, hc, if_false]
      exact hn
    · simp only [framerStep, hc]
      simp
    · intro _
      simp only [framerStep, hc]
      simp

/-- C5: every parsed message whose `method` is `"initialize"` is
answered — whatever the handler registry holds — by exactly one
`ResponseEnvelope` echoing the request id, whose result carries the
fixed protocol version string, the declared capabilities and the server
identity; no registered handler enters the output. -/
theorem C5_initialize_builtin (sv : Server) (input : String) (message : Json)
    (hparse : jsonParse input = some message)
    (hmethod : jsGetProp message "method" = some (.str "initialize")) :
    handleInput sv input =
      ⟨[rpcResult (jsGetProp message "id") (initializeResult sv)], none⟩ := by
  cases message with
  | obj fields => simp [handleInput, tryBody, hparse, hmethod, methodString]
  | _ => simp [jsGetProp] at hmethod

/-- Closed instantiation of C5 on a concrete `initialize` request and a
server with empty registry. -/
theorem C5_initialize_builtin_witness :
    jsonParse "\x7b\"jsonrpc\":\"2.0\",\"id\":1,\"method\":\"initialize\"\x7d" =
      some (.obj [("jsonrpc", .str "2.0"), ("id", .num 1 0),
        ("method", .str "initialize")]) ∧
    handleInput bareServer "\x7b\"jsonrpc\":\"2.0\",\"id\":1,\"method\":\"initialize\"\x7d" =
      ⟨[rpcResult (some (.num 1 0)) (initializeResult bareServer)], none⟩ :=
  ⟨rfl, by
    have h := C5_initialize_builtin bareServer
      "\x7b\"jsonrpc\":\"2.0\",\"id\":1,\"method\":\"initialize\"\x7d"
      (.obj [("jsonrpc", .str "2.0"), ("id", .num 1 0),
        ("method", .str "initialize")]) rfl rfl
    simpa [jsGetProp] using h⟩

/-- C3 (counterexample): the line
`{"jsonrpc":"2.0","id":3,"method":"foo/bar"}` parses as an object whose
method is none of the four recognized ones and has no `command` field,
yet `handleInput` emits no envelope at all — not the claimed `-32603`
`ErrorEnvelope`. -/
theorem C3_counterexample :
    jsonParse "\x7b\"jsonrpc\":\"2.0\",\"id\":3,\"method\":\"foo/bar\"\x7d" =
      some (.obj [("jsonrpc", .str "2.0"), ("id", .num 3 0),
        ("method", .str "foo/bar")]) ∧
    handleInput bareServer "\x7b\"jsonrpc\":\"2.0\",\"id\":3,\"method\":\"foo/bar\"\x7d" =
      ⟨[], none⟩ :=
  ⟨rfl, rfl⟩

/-- A line parsing to a JSON value other than `null` whose `method`
matches none of the four recognized ones and whose `command` field is
absent or falsy falls off the end of `handleInput`: no output, no
exception. -/
theorem handleInput_silent_of_unmatched (sv : Server) (input : String)
    (message : Json)
    (hparse : jsonParse input = some message)
    (hnull : message ≠ .null)
    (hmethod : ∀ s, jsGetProp message "method" = some (.str s) →
      s ∉ (["initialize", "notifications/initialized", "tools/list",
            "tools/call"] : List String))
    (hcommand : jsTruthy (jsGetProp message "command") = false) :
    handleInput sv input = ⟨[], none⟩ := by
  have hlegacy : legacyBranch sv message = .ok [] := by
    simp [legacyBranch, hcommand]
  cases message with
  | null => exact absurd rfl hnull
  | obj fields =>
    rcases hmv : jsGetProp (Json.obj fields) "method" with _ | v
    · simp [handleInput, tryBody, hparse, hmv, methodString, hlegacy]
    · cases v with
      | str s =>
        have h := hmethod s hmv
        simp only [List.mem_cons, List.mem_singleton, not_or] at h
        obtain ⟨h1, h2, h3, h4, -⟩ := h
        simp [handleInput, tryBody, hparse, hmv, methodString, h1, h2, h3, h4,
          hlegacy]
      | _ => simp [handleInput, tryBody, hparse, hmv, methodString, hlegacy]
  | _ => simp [handleInput, tryBody, hparse, jsGetProp, methodString, hlegacy]

/-- C3 (amended): a line parsing to a JSON value other than `null`
whose `method` is none of `initialize`, `notifications/initialized`,
`tools/list`, `tools/call` and whose `command` field is absent or falsy
is silently dropped: no envelope is emitted and no exception escapes. -/
theorem C3_unrecognized_method_silent (sv : Server) (input : String)
    (message : Json)
    (hparse : jsonParse input = some message)
    (hnull : message ≠ .null)
    (hmethod : ∀ s, jsGetProp message "method" = some (.str s) →
      s ∉ (["initialize", "notifications/initialized", "tools/list",
            "tools/call"] : List String))
    (hcommand : jsTruthy (jsGetProp message "command") = false) :
    handleInput sv input = ⟨[], none⟩ :=
  handleInput_silent_of_unmatched sv input message hparse hnull hmethod
    hcommand

/-- Closed instantiation of the C3 amended theorem on the same concrete
unrecognized-method line. -/
theorem C3_unrecognized_method_silent_witness :
    jsonParse "\x7b\"jsonrpc\":\"2.0\",\"id\":3,\"method\":\"foo/bar\"\x7d" =
      some (.obj [("jsonrpc", .str "2.0"), ("id", .num 3 0),
        ("method", .str "foo/bar")]) ∧
    handleInput bareServer "\x7b\"jsonrpc\":\"2.0\",\"id\":3,\"method\":\"foo/bar\"\x7d" =
      ⟨[], none⟩ :=
  ⟨rfl, C3_unrecognized_method_silent bareServer _
    (.obj [("jsonrpc", .str "2.0"), ("id", .num 3 0),
      ("method", .str "foo/bar")]) rfl (by simp)
    (by intro s hs; simp [jsGetProp] at hs; simp [← hs])
    (by decide)⟩

/-- C2 (counterexample): the invalid line `{"id": 1, nope` contains the
substring `"id"`, so the catch block's id-recovery re-parse throws
again: no error envelope at all is emitted (the exception escapes
`handleInput`), contradicting the claimed "exactly one ErrorEnvelope,
never fatal". -/
theorem C2_counterexample :
    jsonParse "\x7b\"id\": 1, nope" = none ∧
    strIncludes "\x7b\"id\": 1, nope" "\"id\"" = true ∧
    handleInput bareServer "\x7b\"id\": 1, nope" =
      ⟨[], some ⟨parseErrorMessage, none⟩⟩ :=
  ⟨rfl, rfl, rfl⟩

/-- C2 (amended): a line that fails JSON parsing yields exactly one
`-32603` `ErrorEnvelope` with id `null` and the failure stays contained
— provided the line does not contain the substring `"id"`; when it
does, the catch block's best-effort re-parse throws again, nothing is
emitted, and the exception escapes `handleInput`.  Either way the
framer keeps feeding subsequent lines of the same chunk to
`handleInput` independently. -/
theorem C2_parse_failure (sv : Server) (input : String)
    (hparse : jsonParse input = none) :
    (strIncludes input "\"id\"" = false →
      handleInput sv input =
        ⟨[rpcError (some .null) ⟨parseErrorMessage, none⟩], none⟩) ∧
    (strIncludes input "\"id\"" = true →
      handleInput sv input = ⟨[], some ⟨parseErrorMessage, none⟩⟩) ∧
    (∀ bad good : List Char,
      input = String.mk bad →
      ('\n' : Char) ∉ bad → ('\n' : Char) ∉ good →
      trimTruthy bad = true → trimTruthy good = true →
      processChunk sv [] (bad ++ '\n' :: (good ++ ['\n'])) =
        ([], [handleInput sv (String.mk bad), handleInput sv (String.mk good)])) := by
  refine ⟨?_, ?_, ?_⟩
  · intro h
    simp [handleInput, tryBody, hparse, h]
  · intro h
    simp [handleInput, tryBody, hparse, h]
  · intro bad good _ hb hg htb htg
    have hsplit : splitNl (bad ++ '\n' :: (good ++ ['\n'])) =
        bad :: good :: [[]] := by
      rw [splitNl_append_newline bad _ hb]
      have : good ++ ['\n'] = good ++ '\n' :: ([] : List Char) := rfl
      rw [this, splitNl_append_newline good _ hg]
      rfl
    have hcontains :
        (([] : List Char) ++ (bad ++ '\n' :: (good ++ ['\n']))).contains '\n' =
          true := by
      simp
    simp [processChunk, framerStep, hcontains, hsplit, htb, htg]

/-- Closed instantiation of the C2 amended theorem: an invalid line
without `"id"` gives the single null-id envelope, one with `"id"`
escapes, and a following valid line is still processed. -/
theorem C2_parse_failure_witness :
    jsonParse "\x7bnot json" = none ∧
    (strIncludes "\x7bnot json" "\"id\"" = false →
      handleInput bareServer "\x7bnot json" =
        ⟨[rpcError (some .null) ⟨parseErrorMessage, none⟩], none⟩) ∧
    processChunk bareServer [] ("\x7bnot json".data ++ '\n' :: ("true".data ++ ['\n'])) =
      ([], [handleInput bareServer (String.mk "\x7bnot json".data),
            handleInput bareServer (String.mk "true".data)]) :=
  ⟨rfl,
   (C2_parse_failure bareServer "\x7bnot json" rfl).1,
   (C2_parse_failure bareServer "\x7bnot json" rfl).2.2 "\x7bnot json".data "true".data
     rfl (by decide) (by decide) (by decide) (by decide)⟩

/-- A server with only a list handler registered, answering with a
fixed catalog. -/
def listServer : Server :=
  { bareServer with listToolsHandler := some (.ok (.obj [("tools", .arr [])])) }

/-- C6 (counterexample): with no list handler registered, the envelope
emitted for `tools/list` carries the message
`No list tools handler registered`, not the claimed
`no list handler registered`. -/
theorem C6_counterexample :
    handleInput bareServer "\x7b\"jsonrpc\":\"2.0\",\"id\":2,\"method\":\"tools/list\"\x7d" =
      ⟨[rpcError (some (.num 2 0))
          ⟨"No list tools handler registered", none⟩], none⟩ ∧
    ("No list tools handler registered" : String) ≠ "no list handler registered" :=
  ⟨rfl, by decide⟩

/-- C6 (amended): a parsed `tools/list` request hitting an empty list
slot yields exactly one `-32603` `ErrorEnvelope` with message
`No list tools handler registered` carrying the request's id (recovered
through the raw line's `"id"` text) and nothing escapes; with a list
handler registered, its resolved value is wrapped unchanged as the
`ResponseEnvelope`'s result. -/
theorem C6_tools_list (sv : Server) (input : String) (message : Json)
    (hparse : jsonParse input = some message)
    (hmethod : jsGetProp message "method" = some (.str "tools/list")) :
    (sv.listToolsHandler = none → strIncludes input "\"id\"" = true →
      handleInput sv input =
        ⟨[rpcError (jsGetProp message "id")
            ⟨"No list tools handler registered", none⟩], none⟩) ∧
    (∀ r : Json, sv.listToolsHandler = some (.ok r) →
      handleInput sv input =
        ⟨[rpcResult (jsGetProp message "id") r], none⟩) := by
  cases message with
  | obj fields =>
    constructor
    · intro hnone hsub
      simp [handleInput, tryBody, hparse, hmethod, methodString, hnone, hsub]
    · intro r hr
      simp [handleInput, tryBody, hparse, hmethod, methodString, hr]
  | _ => simp [jsGetProp] at hmethod

/-- Closed instantiation of C6: the empty slot on `bareServer` and the
registered slot on `listServer`, on the same concrete request. -/
theorem C6_tools_list_witness :
    handleInput bareServer "\x7b\"jsonrpc\":\"2.0\",\"id\":2,\"method\":\"tools/list\"\x7d" =
      ⟨[rpcError (some (.num 2 0))
          ⟨"No list tools handler registered", none⟩], none⟩ ∧
    handleInput listServer "\x7b\"jsonrpc\":\"2.0\",\"id\":2,\"method\":\"tools/list\"\x7d" =
      ⟨[rpcResult (some (.num 2 0)) (.obj [("tools", .arr [])])], none⟩ := by
  have h := C6_tools_list bareServer
    "\x7b\"jsonrpc\":\"2.0\",\"id\":2,\"method\":\"tools/list\"\x7d"
    (.obj [("jsonrpc", .str "2.0"), ("id", .num 2 0),
      ("method", .str "tools/list")]) rfl rfl
  have h' := C6_tools_list listServer
    "\x7b\"jsonrpc\":\"2.0\",\"id\":2,\"method\":\"tools/list\"\x7d"
    (.obj [("jsonrpc", .str "2.0"), ("id", .num 2 0),
      ("method", .str "tools/list")]) rfl rfl
  constructor
  · have := h.1 rfl rfl
    simpa [jsGetProp] using this
  · have := h'.2 (.obj [("tools", .arr [])]) rfl
    simpa [jsGetProp] using this

theorem jsProp_some (r : Json) (h : r ≠ .null) (k : String) :
    jsProp (some r) k = .ok (jsGetProp r k) := by
  cases r with
  | null => exact absurd rfl h
  | _ => rfl

theorem jsGetProp_rpcResult_id (idv r : Json) :
    jsGetProp (rpcResult (some idv) r) "id" = some idv := by
  have h1 : ("jsonrpc" : String) ≠ "id" := by decide
  have h2 : ("result" : String) ≠ "id" := by decide
  simp [rpcResult, jsGetProp, optField, h1, h2]

theorem jsGetProp_rpcResult_result (idv : JsValue) (r : Json) :
    jsGetProp (rpcResult idv r) "result" = some r := by
  have h1 : ("jsonrpc" : String) ≠ "result" := by decide
  have h2 : ("id" : String) ≠ "result" := by decide
  cases idv with
  | none => simp [rpcResult, jsGetProp, optField, h1]
  | some v => simp [rpcResult, jsGetProp, optField, h1, h2]

theorem jsGetProp_rpcError_id (idv : Json) (e : JsError) :
    jsGetProp (rpcError (some idv) e) "id" = some idv := by
  have h1 : ("jsonrpc" : String) ≠ "id" := by decide
  have h2 : ("error" : String) ≠ "id" := by decide
  simp [rpcError, jsGetProp, optField, h1, h2]

theorem jsGetProp_rpcError_error (idv : JsValue) (e : JsError) :
    jsGetProp (rpcError idv e) "error" =
      some (.obj [("code", .num (-32603) 0),
        ("message", .str e.message),
        ("data", .obj [("suggestion", .str "Check input format")])]) := by
  have h1 : ("jsonrpc" : String) ≠ "error" := by decide
  have h2 : ("id" : String) ≠ "error" := by decide
  cases idv with
  | none => simp [rpcError, jsGetProp, optField, h1]
  | some v => simp [rpcError, jsGetProp, optField, h1, h2]

/-- When the `try` block raises on a line that *does* parse (to a
non-null value) and contains `"id"`, the catch emits one error envelope
whose id is the message's `id` property. -/
theorem handleInput_catch (sv : Server) (input : String) (message : Json)
    (e : JsError)
    (hparse : jsonParse input = some message)
    (hnotnull : message ≠ .null)
    (htry : tryBody sv input = .error e)
    (hsub : strIncludes input "\"id\"" = true) :
    handleInput sv input = ⟨[rpcError (jsGetProp message "id") e], none⟩ := by
  cases message with
  | null => exact absurd rfl hnotnull
  | _ => simp [handleInput, htry, hsub, hparse]

/-- C1 (counterexample): the line
`{"jsonrpc":"2.0","id":7,"method":"resources/list"}` parses as JSON and
carries the non-null correlation id `7`, yet `handleInput` emits no
envelope at all. -/
theorem C1_counterexample :
    jsonParse "\x7b\"jsonrpc\":\"2.0\",\"id\":7,\"method\":\"resources/list\"\x7d" =
      some (.obj [("jsonrpc", .str "2.0"), ("id", .num 7 0),
        ("method", .str "resources/list")]) ∧
    handleInput bareServer
        "\x7b\"jsonrpc\":\"2.0\",\"id\":7,\"method\":\"resources/list\"\x7d" =
      ⟨[], none⟩ :=
  ⟨rfl, rfl⟩

/-- C1 (amended): a line parsing as a JSON object with a non-null id
whose `method` is `initialize`, `tools/list` or `tools/call` — and
whose raw text contains the substring `"id"`, as any standard
serialization of an id-carrying request does — always produces exactly
one envelope (a `result` or an `error` one) carrying that id, whatever
the registry holds; a `notifications/initialized` message produces no
output even when it carries an id, and so does a message whose method
is unrecognized or absent when its `command` field is also absent or
falsy. -/
theorem C1_id_correlation (sv : Server) (input : String) (message idv : Json)
    (hparse : jsonParse input = some message)
    (hid : jsGetProp message "id" = some idv)
    (_hnn : idv ≠ .null) :
    (∀ m : String, jsGetProp message "method" = some (.str m) →
      m ∈ (["initialize", "tools/list", "tools/call"] : List String) →
      strIncludes input "\"id\"" = true →
      ∃ envelope : Json,
        handleInput sv input = ⟨[envelope], none⟩ ∧
        jsGetProp envelope "id" = some idv ∧
        (jsGetProp envelope "result" ≠ none ∨
         jsGetProp envelope "error" ≠ none)) ∧
    (jsGetProp message "method" = some (.str "notifications/initialized") →
      handleInput sv input = ⟨[], none⟩) ∧
    ((∀ m : String, jsGetProp message "method" = some (.str m) →
        m ∉ (["initialize", "notifications/initialized", "tools/list",
              "tools/call"] : List String)) →
      jsTruthy (jsGetProp message "command") = false →
      handleInput sv input = ⟨[], none⟩) := by
  cases message with
  | obj fields =>
    refine ⟨?_, ?_, ?_⟩
    · intro m hm hmem hsub
      have hnotnull : (Json.obj fields) ≠ .null := by simp
      simp only [List.mem_cons, List.mem_singleton, List.not_mem_nil,
        or_false] at hmem
      rcases hmem with hm1 | hm1 | hm1
      · subst hm1
        refine ⟨rpcResult (some idv) (initializeResult sv), ?_, ?_, ?_⟩
        · simp [handleInput, tryBody, hparse, hm, methodString, hid]
        · exact jsGetProp_rpcResult_id idv _
        · left
          rw [jsGetProp_rpcResult_result]
          simp
      · subst hm1
        cases hl : sv.listToolsHandler with
        | none =>
          have htry : tryBody sv input =
              .error ⟨"No list tools handler registered", none⟩ := by
            simp [tryBody, hparse, hm, methodString, hl]
          refine ⟨rpcError (some idv)
            ⟨"No list tools handler registered", none⟩, ?_, ?_, ?_⟩
          · rw [handleInput_catch sv input _ _ hparse hnotnull htry hsub, hid]
          · exact jsGetProp_rpcError_id idv _
          · right
            rw [jsGetProp_rpcError_error]
            simp
        | some handler =>
          cases handler with
          | error e =>
            have htry : tryBody sv input = .error e := by
              simp [tryBody, hparse, hm, methodString, hl]
            refine ⟨rpcError (some idv) e, ?_, ?_, ?_⟩
            · rw [handleInput_catch sv input _ _ hparse hnotnull htry hsub, hid]
            · exact jsGetProp_rpcError_id idv _
            · right
              rw [jsGetProp_rpcError_error]
              simp
          | ok r =>
            refine ⟨rpcResult (some idv) r, ?_, ?_, ?_⟩
            · simp [handleInput, tryBody, hparse, hm, methodString, hl, hid]
            · exact jsGetProp_rpcResult_id idv _
            · left
              rw [jsGetProp_rpcResult_result]
              simp
      · subst hm1
        cases hc : sv.callToolHandler with
        | none =>
          have htry : tryBody sv input =
              .error ⟨"No call tool handler registered", none⟩ := by
            simp [tryBody, hparse, hm, methodString, hc]
          refine ⟨rpcError (some idv)
            ⟨"No call tool handler registered", none⟩, ?_, ?_, ?_⟩
          · rw [handleInput_catch sv input _ _ hparse hnotnull htry hsub, hid]
          · exact jsGetProp_rpcError_id idv _
          · right
            rw [jsGetProp_rpcError_error]
            simp
        | some handler =>
          cases hn : jsProp (jsGetProp (Json.obj fields) "params") "name" with
          | error e =>
            have htry : tryBody sv input = .error e := by
              simp [tryBody, hparse, hm, methodString, hc, hn]
            refine ⟨rpcError (some idv) e, ?_, ?_, ?_⟩
            · rw [handleInput_catch sv input _ _ hparse hnotnull htry hsub, hid]
            · exact jsGetProp_rpcError_id idv _
            · right
              rw [jsGetProp_rpcError_error]
              simp
          | ok nameV =>
            cases ha : jsProp (jsGetProp (Json.obj fields) "params") "arguments" with
            | error e =>
              have htry : tryBody sv input = .error e := by
                simp [tryBody, hparse, hm, methodString, hc, hn, ha]
              refine ⟨rpcError (some idv) e, ?_, ?_, ?_⟩
              · rw [handleInput_catch sv input _ _ hparse hnotnull htry hsub, hid]
              · exact jsGetProp_rpcError_id idv _
              · right
                rw [jsGetProp_rpcError_error]
                simp
            | ok argsV =>
              cases hr : handler ⟨nameV, argsV⟩ with
              | error e =>
                have htry : tryBody sv input = .error e := by
                  simp [tryBody, hparse, hm, methodString, hc, hn, ha, hr]
                refine ⟨rpcError (some idv) e, ?_, ?_, ?_⟩
                · rw [handleInput_catch sv input _ _ hparse hnotnull htry hsub,
                    hid]
                · exact jsGetProp_rpcError_id idv _
                · right
                  rw [jsGetProp_rpcError_error]
                  simp
              | ok response =>
                refine ⟨rpcResult (some idv) response, ?_, ?_, ?_⟩
                · simp [handleInput, tryBody, hparse, hm, methodString, hc, hn,
                    ha, hr, hid]
                · exact jsGetProp_rpcResult_id idv _
                · left
                  rw [jsGetProp_rpcResult_result]
                  simp
    · intro hm
      simp [handleInput, tryBody, hparse, hm, methodString]
    · intro hm' hcmd
      exact handleInput_silent_of_unmatched sv input _ hparse (by simp) hm'
        hcmd
  | _ => simp [jsGetProp] at hid

/-- Closed instantiation of C1: a `tools/call` request with id 5 and no
registered call handler still produces exactly one envelope carrying
id 5; an id-bearing `notifications/initialized` line stays silent, and
so does an id-bearing unrecognized-method line with no `command`. -/
theorem C1_id_correlation_witness :
    (∃ envelope : Json,
      handleInput bareServer
          "\x7b\"jsonrpc\":\"2.0\",\"id\":5,\"method\":\"tools/call\",\"params\":\x7b\"name\":\"x\"\x7d\x7d" =
        ⟨[envelope], none⟩ ∧
      jsGetProp envelope "id" = some (.num 5 0) ∧
      (jsGetProp envelope "result" ≠ none ∨
       jsGetProp envelope "error" ≠ none)) ∧
    handleInput bareServer
        "\x7b\"jsonrpc\":\"2.0\",\"id\":9,\"method\":\"notifications/initialized\"\x7d" =
      ⟨[], none⟩ ∧
    handleInput bareServer
        "\x7b\"jsonrpc\":\"2.0\",\"id\":7,\"method\":\"resources/list\"\x7d" =
      ⟨[], none⟩ := by
  refine ⟨?_, ?_, ?_⟩
  · exact (C1_id_correlation bareServer
      "\x7b\"jsonrpc\":\"2.0\",\"id\":5,\"method\":\"tools/call\",\"params\":\x7b\"name\":\"x\"\x7d\x7d"
      (.obj [("jsonrpc", .str "2.0"), ("id", .num 5 0),
        ("method", .str "tools/call"),
        ("params", .obj [("name", .str "x")])])
      (.num 5 0) rfl rfl (by simp)).1
      "tools/call" rfl (by decide) rfl
  · exact (C1_id_correlation bareServer
      "\x7b\"jsonrpc\":\"2.0\",\"id\":9,\"method\":\"notifications/initialized\"\x7d"
      (.obj [("jsonrpc", .str "2.0"), ("id", .num 9 0),
        ("method", .str "notifications/initialized")])
      (.num 9 0) rfl rfl (by simp)).2.1 rfl
  · exact (C1_id_correlation bareServer
      "\x7b\"jsonrpc\":\"2.0\",\"id\":7,\"method\":\"resources/list\"\x7d"
      (.obj [("jsonrpc", .str "2.0"), ("id", .num 7 0),
        ("method", .str "resources/list")])
      (.num 7 0) rfl rfl (by simp)).2.2
      (by intro s hs; simp [jsGetProp] at hs; simp [← hs]) (by decide)

/-- A server whose call handler resolves every request to the empty
object `{}` (no `isError`, no `content`). -/
def emptyRespServer : Server :=
  { bareServer with callToolHandler := some fun _ => .ok (.obj []) }

/-- C4 (counterexample): (i) `{"command":""}` has a `command` field and
no `method`, yet the registered call handler is never invoked and no
output is produced (the falsy empty string fails the `if` guard);
(ii) `{"command":"x"}` with a handler resolving to `{}` — a result with
no `isError` flag — produces a `-32603` error envelope (reading
`content[0]` of `undefined` throws), not the claimed legacy success
envelope. -/
theorem C4_counterexample :
    (jsonParse "\x7b\"command\":\"\"\x7d" = some (.obj [("command", .str "")]) ∧
     handleInput navServer "\x7b\"command\":\"\"\x7d" = ⟨[], none⟩) ∧
    (jsonParse "\x7b\"command\":\"x\"\x7d" = some (.obj [("command", .str "x")]) ∧
     handleInput emptyRespServer "\x7b\"command\":\"x\"\x7d" =
       ⟨[rpcError (some .null) (typeErrorRead "0")], none⟩ ∧
     rpcError (some .null) (typeErrorRead "0") ≠
       legacyEnvelope true [("message", .str "Navigation successful")]) :=
  ⟨⟨rfl, rfl⟩, rfl, rfl, by simp [rpcError, legacyEnvelope, optField]⟩

/-- C4 (amended): for every parsed message with a *truthy* `command`
field and no `method`, dispatch invokes the registered call handler
with `name = command` and `arguments = message.arguments`; when the
handler's result has no `isError` flag *and* its first content block
has a defined `text`, the output is the legacy envelope
`{type:"response", result:{success:true, message:<that text>}}`. -/
theorem C4_legacy_success (sv : Server) (input : String)
    (message cmdV response : Json) (c0 : JsValue) (tv : Json)
    (handler : CallToolRequest → Except JsError Json)
    (hparse : jsonParse input = some message)
    (hmethod : jsGetProp message "method" = none)
    (hcmd : jsGetProp message "command" = some cmdV)
    (htruthy : jsTruthy (some cmdV) = true)
    (hhandler : sv.callToolHandler = some handler)
    (hres : handler ⟨some cmdV, jsGetProp message "arguments"⟩ = .ok response)
    (hnoerr : jsGetProp response "isError" = none)
    (hc0 : jsIndex (jsGetProp response "content") 0 = .ok c0)
    (htext : jsProp c0 "text" = .ok (some tv)) :
    handleInput sv input =
      ⟨[legacyEnvelope true [("message", tv)]], none⟩ := by
  have hrnn : response ≠ .null := by
    intro h
    rw [h] at hc0
    simp [jsGetProp, jsIndex] at hc0
  have hiserr : jsProp (some response) "isError" = .ok none := by
    rw [jsProp_some response hrnn, hnoerr]
  cases message with
  | obj fields =>
    simp [handleInput, tryBody, hparse, hmethod, methodString, legacyBranch,
      hcmd, htruthy, hhandler, hres, legacyReshape, hiserr, hc0, htext,
      optField, show jsTruthy none = false from rfl]
  | _ => simp [jsGetProp] at hcmd

/-- Closed instantiation of C4 on the spec's own example: a legacy
`navigate` command against a handler resolving to a single
`Navigation successful` text block. -/
theorem C4_legacy_success_witness :
    handleInput navServer
        "\x7b\"command\":\"navigate\",\"arguments\":\x7b\"url\":\"https://example.com\"\x7d\x7d" =
      ⟨[legacyEnvelope true [("message", .str "Navigation successful")]],
       none⟩ :=
  C4_legacy_success navServer
    "\x7b\"command\":\"navigate\",\"arguments\":\x7b\"url\":\"https://example.com\"\x7d\x7d"
    (.obj [("command", .str "navigate"),
      ("arguments", .obj [("url", .str "https://example.com")])])
    (.str "navigate")
    (.obj [("content", .arr [.obj [("type", .str "text"),
      ("text", .str "Navigation successful")]])])
    (some (.obj [("type", .str "text"),
      ("text", .str "Navigation successful")]))
    (.str "Navigation successful")
    (fun _ => .ok (.obj [("content", .arr [.obj [("type", .str "text"),
      ("text", .str "Navigation successful")]])]))
    rfl rfl rfl rfl rfl rfl rfl rfl rfl

/-- A controller every one of whose operations rejects with the given
error, for exercising the handler's failure paths. -/
def ctlThrowAll (e : JsError) : PlaywrightController where
  openBrowser := fun _ _ => .error e
  navigate := fun _ => .error e
  type := fun _ _ => .error e
  click := fun _ => .error e
  moveMouse := fun _ _ => .error e
  scroll := fun _ _ _ => .error e
  screenshot := fun _ => .error e
  getPageSource := .error e
  getPageText := .error e
  getPageTitle := .error e
  getPageUrl := .error e
  getScripts := .error e
  getStylesheets := .error e
  getMetaTags := .error e
  getLinks := .error e
  getImages := .error e
  getForms := .error e
  getElementContent := fun _ => .error e
  getElementHierarchy := fun _ _ _ _ => .error e
  executeJavaScript := fun _ => .error e
  closeBrowser := .error e

set_option maxHeartbeats 1600000 in
/-- Any name the `switch` does not recognize — whether a string outside
the 21 case labels or a non-string — falls to the `default` arm. -/
theorem callToolSwitch_unknown (pc : PlaywrightController) (nameV : JsValue)
    (args : Json)
    (hname : ∀ s, nameV = some (.str s) → s ∉ knownToolNames) :
    callToolSwitch pc nameV args = .ok (unknownToolResult nameV) := by
  cases nameV with
  | none => rfl
  | some v =>
    cases v with
    | str s =>
      have hs := hname s rfl
      simp only [knownToolNames, List.mem_cons, List.mem_singleton,
        List.not_mem_nil, or_false, not_or] at hs
      obtain ⟨h1, h2, h3, h4, h5, h6, h7, h8, h9, h10, h11, h12, h13, h14,
        h15, h16, h17, h18, h19, h20, h21⟩ := hs
      simp only [callToolSwitch, methodString, h1, h2, h3, h4, h5, h6, h7, h8,
        h9, h10, h11, h12, h13, h14, h15, h16, h17, h18, h19, h20, h21,
        if_false, ite_false]
    | _ => rfl

/-- C8: a `tools/call` whose `params.name` is none of the tool names
known to the registered call handler resolves (for every controller and
argument value) to the content-shaped
`{content: [{type:"text", text:"Unknown tool: <name>"}], isError: true}`
result, and the transport wraps it as a success `ResponseEnvelope`
(a `result` field), not a transport-level `ErrorEnvelope`. -/
theorem C8_unknown_tool (pc : PlaywrightController) (nameV argsV : JsValue)
    (hname : ∀ s, nameV = some (.str s) → s ∉ knownToolNames) :
    registeredCallTool pc ⟨nameV, argsV⟩ = .ok (unknownToolResult nameV) ∧
    (∀ (sv : Server) (input : String) (message : Json),
      jsonParse input = some message →
      jsGetProp message "method" = some (.str "tools/call") →
      sv.callToolHandler = some (registeredCallTool pc) →
      jsProp (jsGetProp message "params") "name" = .ok nameV →
      jsProp (jsGetProp message "params") "arguments" = .ok argsV →
      handleInput sv input =
        ⟨[rpcResult (jsGetProp message "id") (unknownToolResult nameV)],
         none⟩) := by
  have hswitch : registeredCallTool pc ⟨nameV, argsV⟩ =
      .ok (unknownToolResult nameV) := by
    unfold registeredCallTool
    rw [callToolSwitch_unknown pc nameV _ hname]
  refine ⟨hswitch, ?_⟩
  intro sv input message hparse hmethod hhandler hn ha
  cases message with
  | obj fields =>
    simp [handleInput, tryBody, hparse, hmethod, methodString, hhandler, hn,
      ha, hswitch]
  | _ => simp [jsGetProp] at hmethod

/-- Closed instantiation of C8: the unregistered name `foo` against the
always-throwing controller and an end-to-end `tools/call` line. -/
theorem C8_unknown_tool_witness :
    registeredCallTool (ctlThrowAll ⟨"boom", some "hint"⟩)
        ⟨some (.str "foo"), none⟩ =
      .ok (unknownToolResult (some (.str "foo"))) ∧
    handleInput
        { bareServer with
          callToolHandler := some (registeredCallTool (ctlThrowAll ⟨"boom", some "hint"⟩)) }
        "\x7b\"jsonrpc\":\"2.0\",\"id\":4,\"method\":\"tools/call\",\"params\":\x7b\"name\":\"foo\"\x7d\x7d" =
      ⟨[rpcResult (some (.num 4 0)) (unknownToolResult (some (.str "foo")))],
       none⟩ := by
  have h := C8_unknown_tool (ctlThrowAll ⟨"boom", some "hint"⟩)
    (some (.str "foo")) none
    (by intro s hs; simp at hs; simp [← hs]; decide)
  refine ⟨h.1, ?_⟩
  have h2 := h.2
    { bareServer with
      callToolHandler := some (registeredCallTool (ctlThrowAll ⟨"boom", some "hint"⟩)) }
    "\x7b\"jsonrpc\":\"2.0\",\"id\":4,\"method\":\"tools/call\",\"params\":\x7b\"name\":\"foo\"\x7d\x7d"
    (.obj [("jsonrpc", .str "2.0"), ("id", .num 4 0),
      ("method", .str "tools/call"),
      ("params", .obj [("name", .str "foo")])])
    rfl rfl rfl rfl rfl
  simpa [jsGetProp] using h2

/-- C9 (counterexample): `BrowserError` allows an empty-string
suggestion; when the controller's `navigate` rejects with message `m`
and the *present* suggestion `""`, the handler resolves to
`Error: m` without the claimed `\nSuggestion: ` continuation (the
`catch` tests the suggestion for truthiness, and `""` is falsy). -/
theorem C9_counterexample :
    (ctlThrowAll ⟨"m", some ""⟩).navigate (some (.str "https://x")) =
      .error ⟨"m", some ""⟩ ∧
    registeredCallTool (ctlThrowAll ⟨"m", some ""⟩)
        ⟨some (.str "navigate"), some (.obj [("url", .str "https://x")])⟩ =
      .ok (errContent "Error: m") ∧
    ("Error: m" : String) ≠ "Error: m\nSuggestion: " :=
  ⟨rfl, rfl, by decide⟩

/-- C9 (amended): the registered `callTool` handler never rejects: for
every controller behaviour and request it resolves, and whenever the
`switch` body raises an error with message `m` (every controller
rejection propagates there) the resolved value is
`{content: [{type:"text", text:"Error: m" (+ "\nSuggestion: s" for a
present *non-empty* suggestion s)}], isError: true}`. -/
theorem C9_handler_never_rejects (pc : PlaywrightController)
    (req : CallToolRequest) :
    ∃ r : Json, registeredCallTool pc req = .ok r ∧
      ∀ e : JsError,
        callToolSwitch pc req.name (requestArgs req) = .error e →
        r = errContent ("Error: " ++ e.message ++
          (match e.suggestion with
           | some s => if s ≠ "" then "\nSuggestion: " ++ s else ""
           | none => "")) := by
  unfold registeredCallTool
  cases h : callToolSwitch pc req.name (requestArgs req) with
  | ok r =>
    refine ⟨r, rfl, ?_⟩
    intro e he
    exact Except.noConfusion he
  | error e0 =>
    refine ⟨errContent (catchText e0), rfl, ?_⟩
    intro e he
    injection he with he'
    rw [← he']
    rfl

/-- Closed instantiation of C9: the always-rejecting controller (with a
non-empty suggestion) on a `navigate` call resolves to the
`Error: boom` + `Suggestion: try again` content. -/
theorem C9_handler_never_rejects_witness :
    ∃ r : Json,
      registeredCallTool (ctlThrowAll ⟨"boom", some "try again"⟩)
          ⟨some (.str "navigate"), some (.obj [("url", .str "u")])⟩ =
        .ok r ∧
      ∀ e : JsError,
        callToolSwitch (ctlThrowAll ⟨"boom", some "try again"⟩)
            (some (.str "navigate"))
            (requestArgs ⟨some (.str "navigate"), some (.obj [("url", .str "u")])⟩) =
          .error e →
        r = errContent ("Error: " ++ e.message ++
          (match e.suggestion with
           | some s => if s ≠ "" then "\nSuggestion: " ++ s else ""
           | none => "")) :=
  C9_handler_never_rejects (ctlThrowAll ⟨"boom", some "try again"⟩)
    ⟨some (.str "navigate"), some (.obj [("url", .str "u")])⟩

/-- A settled handler outcome that is either a raised error or a
result whose `content` list has exactly one block. -/
def contentSingle (x : Except JsError Json) : Prop :=
  (∃ e : JsError, x = .error e) ∨
  (∃ r blk : Json, x = .ok r ∧ jsGetProp r "content" = some (.arr [blk]))

theorem caseOpenBrowser_single (pc : PlaywrightController) (args : Json) :
    contentSingle (caseOpenBrowser pc args) := by
  unfold caseOpenBrowser
  repeat' split
  all_goals first
    | exact .inl ⟨_, rfl⟩
    | exact .inr ⟨_, _, rfl, rfl⟩

theorem caseNavigate_single (pc : PlaywrightController) (args : Json) :
    contentSingle (caseNavigate pc args) := by
  unfold caseNavigate
  repeat' split
  all_goals first
    | exact .inl ⟨_, rfl⟩
    | exact .inr ⟨_, _, rfl, rfl⟩

theorem caseType_single (pc : PlaywrightController) (args : Json) :
    contentSingle (caseType pc args) := by
  unfold caseType
  repeat' split
  all_goals first
    | exact .inl ⟨_, rfl⟩
    | exact .inr ⟨_, _, rfl, rfl⟩

theorem caseClick_single (pc : PlaywrightController) (args : Json) :
    contentSingle (caseClick pc args) := by
  unfold caseClick
  repeat' split
  all_goals first
    | exact .inl ⟨_, rfl⟩
    | exact .inr ⟨_, _, rfl, rfl⟩

theorem caseMoveMouse_single (pc : PlaywrightController) (args : Json) :
    contentSingle (caseMoveMouse pc args) := by
  unfold caseMoveMouse
  repeat' split
  all_goals first
    | exact .inl ⟨_, rfl⟩
    | exact .inr ⟨_, _, rfl, rfl⟩

theorem caseScroll_single (pc : PlaywrightController) (args : Json) :
    contentSingle (caseScroll pc args) := by
  unfold caseScroll
  repeat' split
  all_goals first
    | exact .inl ⟨_, rfl⟩
    | exact .inr ⟨_, _, rfl, rfl⟩

theorem caseScreenshot_single (pc : PlaywrightController) (args : Json) :
    contentSingle (caseScreenshot pc args) := by
  unfold caseScreenshot
  repeat' split
  all_goals first
    | exact .inl ⟨_, rfl⟩
    | exact .inr ⟨_, _, rfl, rfl⟩

theorem caseGetPageSource_single (pc : PlaywrightController) (args : Json) :
    contentSingle (caseGetPageSource pc args) := by
  unfold caseGetPageSource
  repeat' split
  all_goals first
    | exact .inl ⟨_, rfl⟩
    | exact .inr ⟨_, _, rfl, rfl⟩

theorem caseGetPageText_single (pc : PlaywrightController) (args : Json) :
    contentSingle (caseGetPageText pc args) := by
  unfold caseGetPageText
  repeat' split
  all_goals first
    | exact .inl ⟨_, rfl⟩
    | exact .inr ⟨_, _, rfl, rfl⟩

theorem caseGetPageTitle_single (pc : PlaywrightController) (args : Json) :
    contentSingle (caseGetPageTitle pc args) := by
  unfold caseGetPageTitle
  repeat' split
  all_goals first
    | exact .inl ⟨_, rfl⟩
    | exact .inr ⟨_, _, rfl, rfl⟩

theorem caseGetPageUrl_single (pc : PlaywrightController) (args : Json) :
    contentSingle (caseGetPageUrl pc args) := by
  unfold caseGetPageUrl
  repeat' split
  all_goals first
    | exact .inl ⟨_, rfl⟩
    | exact .inr ⟨_, _, rfl, rfl⟩

theorem caseGetScripts_single (pc : PlaywrightController) (args : Json) :
    contentSingle (caseGetScripts pc args) := by
  unfold caseGetScripts
  repeat' split
  all_goals first
    | exact .inl ⟨_, rfl⟩
    | exact .inr ⟨_, _, rfl, rfl⟩

theorem caseGetStylesheets_single (pc : PlaywrightController) (args : Json) :
    contentSingle (caseGetStylesheets pc args) := by
  unfold caseGetStylesheets
  repeat' split
  all_goals first
    | exact .inl ⟨_, rfl⟩
    | exact .inr ⟨_, _, rfl, rfl⟩

theorem caseGetMetaTags_single (pc : PlaywrightController) (args : Json) :
    contentSingle (caseGetMetaTags pc args) := by
  unfold caseGetMetaTags
  repeat' split
  all_goals first
    | exact .inl ⟨_, rfl⟩
    | exact .inr ⟨_, _, rfl, rfl⟩

theorem caseGetLinks_single (pc : PlaywrightController) (args : Json) :
    contentSingle (caseGetLinks pc args) := by
  unfold caseGetLinks
  repeat' split
  all_goals first
    | exact .inl ⟨_, rfl⟩
    | exact .inr ⟨_, _, rfl, rfl⟩

theorem caseGetImages_single (pc : PlaywrightController) (args : Json) :
    contentSingle (caseGetImages pc args) := by
  unfold caseGetImages
  repeat' split
  all_goals first
    | exact .inl ⟨_, rfl⟩
    | exact .inr ⟨_, _, rfl, rfl⟩

theorem caseGetForms_single (pc : PlaywrightController) (args : Json) :
    contentSingle (caseGetForms pc args) := by
  unfold caseGetForms
  repeat' split
  all_goals first
    | exact .inl ⟨_, rfl⟩
    | exact .inr ⟨_, _, rfl, rfl⟩

theorem caseGetElementContent_single (pc : PlaywrightController) (args : Json) :
    contentSingle (caseGetElementContent pc args) := by
  unfold caseGetElementContent
  repeat' split
  all_goals first
    | exact .inl ⟨_, rfl⟩
    | exact .inr ⟨_, _, rfl, rfl⟩

theorem caseGetElementHierarchy_single (pc : PlaywrightController) (args : Json) :
    contentSingle (caseGetElementHierarchy pc args) := by
  unfold caseGetElementHierarchy
  repeat' split
  all_goals first
    | exact .inl ⟨_, rfl⟩
    | exact .inr ⟨_, _, rfl, rfl⟩

theorem caseExecuteJavaScript_single (pc : PlaywrightController) (args : Json) :
    contentSingle (caseExecuteJavaScript pc args) := by
  unfold caseExecuteJavaScript
  repeat' split
  all_goals first
    | exact .inl ⟨_, rfl⟩
    | exact .inr ⟨_, _, rfl, rfl⟩

theorem caseCloseBrowser_single (pc : PlaywrightController) (args : Json) :
    contentSingle (caseCloseBrowser pc args) := by
  unfold caseCloseBrowser
  repeat' split
  all_goals first
    | exact .inl ⟨_, rfl⟩
    | exact .inr ⟨_, _, rfl, rfl⟩

set_option maxHeartbeats 1600000 in
/-- The `switch` either raises or resolves to a `content` list of
exactly one block. -/
theorem callToolSwitch_single (pc : PlaywrightController) (nameV : JsValue)
    (args : Json) :
    contentSingle (callToolSwitch pc nameV args) := by
  cases nameV with
  | none => exact .inr ⟨_, _, rfl, rfl⟩
  | some v =>
    cases v with
    | str s =>
      simp only [callToolSwitch, methodString]
      by_cases h1 : s = "openBrowser"
      · rw [if_pos h1]
        exact caseOpenBrowser_single pc args
      · rw [if_neg h1]
        by_cases h2 : s = "navigate"
        · rw [if_pos h2]
          exact caseNavigate_single pc args
        · rw [if_neg h2]
          by_cases h3 : s = "type"
          · rw [if_pos h3]
            exact caseType_single pc args
          · rw [if_neg h3]
            by_cases h4 : s = "click"
            · rw [if_pos h4]
              exact caseClick_single pc args
            · rw [if_neg h4]
              by_cases h5 : s = "moveMouse"
              · rw [if_pos h5]
                exact caseMoveMouse_single pc args
              · rw [if_neg h5]
                by_cases h6 : s = "scroll"
                · rw [if_pos h6]
                  exact caseScroll_single pc args
                · rw [if_neg h6]
                  by_cases h7 : s = "screenshot"
                  · rw [if_pos h7]
                    exact caseScreenshot_single pc args
                  · rw [if_neg h7]
                    by_cases h8 : s = "getPageSource"
                    · rw [if_pos h8]
                      exact caseGetPageSource_single pc args
                    · rw [if_neg h8]
                      by_cases h9 : s = "getPageText"
                      · rw [if_pos h9]
                        exact caseGetPageText_single pc args
                      · rw [if_neg h9]
                        by_cases h10 : s = "getPageTitle"
                        · rw [if_pos h10]
                          exact caseGetPageTitle_single pc args
                        · rw [if_neg h10]
                          by_cases h11 : s = "getPageUrl"
                          · rw [if_pos h11]
                            exact caseGetPageUrl_single pc args
                          · rw [if_neg h11]
                            by_cases h12 : s = "getScripts"
                            · rw [if_pos h12]
                              exact caseGetScripts_single pc args
                            · rw [if_neg h12]
                              by_cases h13 : s = "getStylesheets"
                              · rw [if_pos h13]
                                exact caseGetStylesheets_single pc args
                              · rw [if_neg h13]
                                by_cases h14 : s = "getMetaTags"
                                · rw [if_pos h14]
                                  exact caseGetMetaTags_single pc args
                                · rw [if_neg h14]
                                  by_cases h15 : s = "getLinks"
                                  · rw [if_pos h15]
                                    exact caseGetLinks_single pc args
                                  · rw [if_neg h15]
                                    by_cases h16 : s = "getImages"
                                    · rw [if_pos h16]
                                      exact caseGetImages_single pc args
                                    · rw [if_neg h16]
                                      by_cases h17 : s = "getForms"
                                      · rw [if_pos h17]
                                        exact caseGetForms_single pc args
                                      · rw [if_neg h17]
                                        by_cases h18 : s = "getElementContent"
                                        · rw [if_pos h18]
                                          exact caseGetElementContent_single pc args
                                        · rw [if_neg h18]
                                          by_cases h19 : s = "getElementHierarchy"
                                          · rw [if_pos h19]
                                            exact caseGetElementHierarchy_single pc args
                                          · rw [if_neg h19]
                                            by_cases h20 : s = "executeJavaScript"
                                            · rw [if_pos h20]
                                              exact caseExecuteJavaScript_single pc args
                                            · rw [if_neg h20]
                                              by_cases h21 : s = "closeBrowser"
                                              · rw [if_pos h21]
                                                exact caseCloseBrowser_single pc args
                                              · rw [if_neg h21]
                                                exact .inr ⟨_, _, rfl, rfl⟩
    | _ => exact .inr ⟨_, _, rfl, rfl⟩

/-- The registered handler only resolves to single-block contents. -/
theorem registeredCallTool_single (pc : PlaywrightController)
    (req : CallToolRequest) :
    ∃ r blk : Json, registeredCallTool pc req = .ok r ∧
      jsGetProp r "content" = some (.arr [blk]) := by
  have h := callToolSwitch_single pc req.name (requestArgs req)
  unfold contentSingle at h
  rcases h with ⟨e, he⟩ | ⟨r, blk, hr, hb⟩
  · exact ⟨errContent (catchText e), _, by simp [registeredCallTool, he], rfl⟩
  · exact ⟨r, blk, by simp [registeredCallTool, hr], hb⟩

/-- A server whose call handler reports a two-block error content. -/
def errServer : Server :=
  { bareServer with
    callToolHandler := some fun _ =>
      .ok (.obj [("content", .arr
        [.obj [("type", .str "text"), ("text", .str "Failed to navigate")],
         .obj [("type", .str "text"), ("text", .str "Check the URL")]]),
        ("isError", .bool true)]) }

/-- C10: on the legacy command path, a handler result with a truthy
`isError` is reshaped to `{type:"response", result:{success:false,
error:{message:<text of content[0]>, suggestion:<text of content[1]
when defined>}}}`, the `suggestion` key dropped when `content[1]?.text`
is undefined — in particular absent for every single-block content list,
which is all the registered `callTool` handler ever returns. -/
theorem C10_legacy_error_reshape :
    (∀ (sv : Server) (input : String) (message cmdV response : Json)
       (blocks : List Json) (b0 tv ie : Json)
       (handler : CallToolRequest → Except JsError Json),
      jsonParse input = some message →
      jsGetProp message "method" = none →
      jsGetProp message "command" = some cmdV →
      jsTruthy (some cmdV) = true →
      sv.callToolHandler = some handler →
      handler ⟨some cmdV, jsGetProp message "arguments"⟩ = .ok response →
      jsGetProp response "isError" = some ie →
      jsTruthy (some ie) = true →
      jsGetProp response "content" = some (.arr blocks) →
      blocks.get? 0 = some b0 →
      jsGetProp b0 "text" = some tv →
      (handleInput sv input =
        ⟨[legacyEnvelope false [("error", .obj (("message", tv) ::
            optField "suggestion" (jsOptProp (blocks.get? 1) "text")))]],
         none⟩ ∧
       (blocks = [b0] →
        handleInput sv input =
          ⟨[legacyEnvelope false [("error", .obj [("message", tv)])]],
           none⟩))) ∧
    (∀ (pc : PlaywrightController) (req : CallToolRequest),
      ∃ r blk : Json, registeredCallTool pc req = .ok r ∧
        jsGetProp r "content" = some (.arr [blk])) := by
  constructor
  · intro sv input message cmdV response blocks b0 tv ie handler hparse
      hmethod hcmd htruthy hhandler hres hie htie hcontent hb0 htext
    have hrnn : response ≠ .null := by
      intro h
      rw [h] at hcontent
      simp [jsGetProp] at hcontent
    have hiserr : jsProp (some response) "isError" = .ok (some ie) := by
      rw [jsProp_some response hrnn, hie]
    have hb0nn : b0 ≠ .null := by
      intro h
      rw [h] at htext
      simp [jsGetProp] at htext
    have htextE : jsProp (some b0) "text" = .ok (some tv) := by
      rw [jsProp_some b0 hb0nn, htext]
    have hc0 : jsIndex (jsGetProp response "content") 0 = .ok (some b0) := by
      rw [hcontent]
      show Except.ok (blocks.get? 0) = Except.ok (some b0)
      rw [hb0]
    have hc1 : jsIndex (jsGetProp response "content") 1 =
        .ok (blocks.get? 1) := by
      rw [hcontent]
      rfl
    have hmain : handleInput sv input =
        ⟨[legacyEnvelope false [("error", .obj (("message", tv) ::
            optField "suggestion" (jsOptProp (blocks.get? 1) "text")))]],
         none⟩ := by
      cases message with
      | obj fields =>
        simp [handleInput, tryBody, hparse, hmethod, methodString,
          legacyBranch, hcmd, htruthy, hhandler, hres, legacyReshape, hiserr,
          htie, hc0, htextE, hc1, optField]
      | _ => simp [jsGetProp] at hcmd
    refine ⟨hmain, ?_⟩
    intro hbs
    rw [hmain, hbs]
    simp [jsOptProp, optField]
  · exact registeredCallTool_single

/-- Closed instantiation of C10: a two-block error content surfaces
`message` and `suggestion`; a concrete call to the registered handler
resolves to a single-block content. -/
theorem C10_legacy_error_reshape_witness :
    handleInput errServer "\x7b\"command\":\"navigate\"\x7d" =
      ⟨[legacyEnvelope false [("error", .obj
          [("message", .str "Failed to navigate"),
           ("suggestion", .str "Check the URL")])]], none⟩ ∧
    (∃ r blk : Json,
      registeredCallTool (ctlThrowAll ⟨"boom", some "hint"⟩)
          ⟨some (.str "noSuchTool"), none⟩ = .ok r ∧
      jsGetProp r "content" = some (.arr [blk])) := by
  constructor
  · have h := (C10_legacy_error_reshape.1 errServer "\x7b\"command\":\"navigate\"\x7d"
      (.obj [("command", .str "navigate")]) (.str "navigate")
      (.obj [("content", .arr
        [.obj [("type", .str "text"), ("text", .str "Failed to navigate")],
         .obj [("type", .str "text"), ("text", .str "Check the URL")]]),
        ("isError", .bool true)])
      [.obj [("type", .str "text"), ("text", .str "Failed to navigate")],
       .obj [("type", .str "text"), ("text", .str "Check the URL")]]
      (.obj [("type", .str "text"), ("text", .str "Failed to navigate")])
      (.str "Failed to navigate") (.bool true)
      (fun _ => .ok (.obj [("content", .arr
        [.obj [("type", .str "text"), ("text", .str "Failed to navigate")],
         .obj [("type", .str "text"), ("text", .str "Check the URL")]]),
        ("isError", .bool true)]))
      rfl rfl rfl rfl rfl rfl rfl rfl rfl rfl rfl).1
    simpa [jsOptProp, jsGetProp, optField] using h
  · exact C10_legacy_error_reshape.2 (ctlThrowAll ⟨"boom", some "hint"⟩)
      ⟨some (.str "noSuchTool"), none⟩

/-- Closed instantiation of the C7 characterization on a concrete
buffer and chunk. -/
theorem C7_framer_characterization_witness :
    ∃ lines : List (List Char),
      "ab".data ++ "c\nd".data =
        joinNl (lines ++ [(framerStep "ab".data "c\nd".data).1]) ∧
      (∀ l ∈ lines, ('\n' : Char) ∉ l) ∧
      ('\n' : Char) ∉ (framerStep "ab".data "c\nd".data).1 ∧
      (framerStep "ab".data "c\nd".data).2 = lines.filter trimTruthy ∧
      (('\n' : Char) ∉ "ab".data ++ "c\nd".data →
        lines = [] ∧ (framerStep "ab".data "c\nd".data).1 = "ab".data ++ "c\nd".data) :=
  C7_framer_characterization "ab".data "c\nd".data

example : jsonParse "\x7bnot json" = none := rfl

example : jsonParse " [1, -2.5e1, \"a\\nb\", true, null] " =
    some (.arr [.num 1 0, .num (-25) 0, .str "a\nb", .bool true, .null]) := rfl
